import Mathlib

/-!
Payment service (`src/index.js`): the two route handlers.

A shallow embedding of the `POST /create-payment-intent` and `POST /webhook`
handlers of `src/index.js`.

* JavaScript values are the JSON values plus `undefined` (`JsVal`); numbers are
  the integer-valued ones (amounts are minor currency units).
* The Stripe client, `JSON.parse` and the environment are parameters: every
  provider function is an arbitrary function from its argument to either a
  resolved value or a thrown / rejected error.
* The body of a `/webhook` request is what the middleware of lines 8 and 86
  leaves in `req.body`: the parsed object for a JSON request, since
  `express.json ()` is registered before the route.
* A handler run is an `Eff Response`: the provider calls it made, in order, the
  console lines it wrote, in order, and either the response it sent or the
  error it left uncaught. An awaited call always settles: it resolves or it
  rejects.
* The handler of `/create-payment-intent` is cut along the comments of the
  source into customer resolution (lines 31-44), subscription creation (lines
  47-58) and the one-off fallback (lines 63-76).
-/

namespace PaymentService

/-! ## JavaScript values -/

/-- JSON values together with `undefined`. -/
inductive JsVal where
  | undefined
  | null
  | bool (b : Bool)
  | num (n : Int)
  | str (s : String)
  | arr (items : List JsVal)
  | obj (fields : List (String × JsVal))

/-- A thrown or rejected `Error`; only its `message` is ever read. -/
structure JsError where
  message : String

namespace JsVal

/-- JavaScript truthiness (`ToBoolean`). -/
def truthy : JsVal → Bool
  | undefined => false
  | null => false
  | bool b => b
  | num n => n != 0
  | str s => s != ""
  | arr _ => true
  | obj _ => true

/-- The values on which a property read throws: `undefined` and `null`. -/
def nullish : JsVal → Bool
  | undefined => true
  | null => true
  | _ => false

/-- The operator `a || b` on values (`b` has no effect in any use below). -/
def or (a b : JsVal) : JsVal := if a.truthy then a else b

/-- The comparison `v === s` for a string literal `s`. -/
def strictEqStr (v : JsVal) (s : String) : Bool :=
  match v with
  | str t => t == s
  | _ => false

/-- Own property `k` of an object given by its field list; `undefined` when the
field is missing. -/
def lookup (fields : List (String × JsVal)) (k : String) : JsVal :=
  match fields.lookup k with
  | some v => v
  | none => undefined

/-- The property read `v.k`, for the property names the handlers use (`plan`,
`email`, `customerId`, `metadata`, `amount`, `currency`, `deleted`, `id`,
`latest_invoice`, `payment_intent`, `client_secret`, `type`, `data`, `object`,
`status`): none of them is defined on a built-in prototype, so the read gives
`undefined` on every value that is not an object with that field, and throws a
`TypeError` on `undefined` and `null`, worded as V8 words it (`\x27` is the
quotation mark around the property name). -/
def get (v : JsVal) (k : String) : Except JsError JsVal :=
  match v with
  | undefined =>
    .error ⟨"Cannot read properties of undefined (reading \x27" ++ k ++ "\x27)"⟩
  | null => .error ⟨"Cannot read properties of null (reading \x27" ++ k ++ "\x27)"⟩
  | obj fields => .ok (lookup fields k)
  | _ => .ok undefined

/-- The read of property `k` in a destructuring `const { k, ... } = source`,
where `v` is the value of the expression written `source`: as `get`, but the
`TypeError` on `undefined` and `null` is worded as V8 words it for a
destructuring. -/
def destructure (v : JsVal) (k source : String) : Except JsError JsVal :=
  match v with
  | undefined =>
    .error ⟨"Cannot destructure property \x27" ++ k ++ "\x27 of \x27" ++ source ++
      "\x27 as it is undefined."⟩
  | null =>
    .error ⟨"Cannot destructure property \x27" ++ k ++ "\x27 of \x27" ++ source ++
      "\x27 as it is null."⟩
  | obj fields => .ok (lookup fields k)
  | _ => .ok undefined

mutual

/-- The string `v.toString ()` of a value other than `undefined` and `null` (on
which it gives their names, as `String (v)` does): a plain object is
`[object Object]`, an array is its elements joined by commas, an integer is
written in decimal (as JavaScript writes those below 10^21). -/
def toStr : JsVal → String
  | undefined => "undefined"
  | null => "null"
  | bool b => if b then "true" else "false"
  | num n => toString n
  | str s => s
  | arr items => join items
  | obj _ => "[object Object]"

/-- The elements of an array joined by commas, `Array.prototype.join`. -/
def join : List JsVal → String
  | [] => ""
  | [x] => joined x
  | x :: y :: rest => joined x ++ "," ++ join (y :: rest)

/-- One element in a join: `undefined` and `null` are written as nothing. -/
def joined : JsVal → String
  | undefined => ""
  | null => ""
  | bool b => if b then "true" else "false"
  | num n => toString n
  | str s => s
  | arr items => join items
  | obj _ => "[object Object]"

end

end JsVal

/-- An environment variable as a JavaScript value: a string, or `undefined`
when the variable is not set. -/
def envVal : Option String → JsVal
  | some s => .str s
  | none => .undefined

/-! ## Provider, environment, requests, responses -/

/-- The object `stripe.customers`. -/
structure Customers where
  retrieve : JsVal → Except JsError JsVal
  create : JsVal → Except JsError JsVal

/-- The object `stripe.subscriptions`. -/
structure Subscriptions where
  create : JsVal → Except JsError JsVal

/-- The object `stripe.paymentIntents`. -/
structure PaymentIntents where
  create : JsVal → Except JsError JsVal

/-- The value of `req.body` in the `/webhook` handler. `app.use (express.json ())`
of line 8 runs before the route and its `express.raw` of line 86, so the body of
a JSON request reaches the handler as the object `express.json` parsed
(`parsed`), and `express.raw`, finding the body already read, leaves it so;
`raw` is the `Buffer` of the unparsed bytes, given by the text it decodes to;
`absent` is `undefined`. -/
inductive ReqBody where
  | absent
  | raw (text : String)
  | parsed (value : JsVal)

/-- The object `stripe.webhooks`; `constructEvent (payload, header, secret)`. -/
structure Webhooks where
  constructEvent : ReqBody → JsVal → String → Except JsError JsVal

/-- The Stripe client of line 10. -/
structure Stripe where
  customers : Customers
  subscriptions : Subscriptions
  paymentIntents : PaymentIntents
  webhooks : Webhooks

/-- The variables of `process.env` the handlers read. -/
structure Env where
  STRIPE_MONTHLY_PRICE_ID : Option String
  STRIPE_ANNUAL_PRICE_ID : Option String
  STRIPE_WEBHOOK_SECRET : Option String

/-- A provider call with the argument it was given. -/
inductive Call where
  | customersRetrieve (id : JsVal)
  | customersCreate (params : JsVal)
  | subscriptionsCreate (params : JsVal)
  | paymentIntentsCreate (params : JsVal)

/-- What the provider answers to a call. -/
def Stripe.run (stripe : Stripe) : Call → Except JsError JsVal
  | .customersRetrieve id => stripe.customers.retrieve id
  | .customersCreate p => stripe.customers.create p
  | .subscriptionsCreate p => stripe.subscriptions.create p
  | .paymentIntentsCreate p => stripe.paymentIntents.create p

/-- One argument of a console call. A template literal is kept as its pieces. -/
inductive LogArg where
  | val (v : JsVal)
  | err (e : JsError)

/-- A line written by `console.error` or `console.log`. -/
inductive LogLine where
  | error (args : List LogArg)
  | log (args : List LogArg)

/-- The body of a response: `res.json (v)` or `res.send (text)`. -/
inductive Body where
  | json (v : JsVal)
  | text (s : String)

/-- A response: status code (200 unless `res.status` was called) and body. -/
structure Response where
  status : Nat
  body : Body

/-! ## Effects of a handler run -/

/-- A run of handler code: provider calls made, console lines written, and the
value produced or the error thrown. -/
structure Eff (α : Type) where
  calls : List Call
  logs : List LogLine
  result : Except JsError α

namespace Eff

/-- A value, without effect. -/
def pure {α : Type} (a : α) : Eff α := ⟨[], [], .ok a⟩

/-- The run `m` placed after the calls `cs` and the console lines `ls`. -/
def after {α : Type} (cs : List Call) (ls : List LogLine) (m : Eff α) : Eff α :=
  ⟨cs ++ m.calls, ls ++ m.logs, m.result⟩

/-- Sequencing: a throw in the first part skips the second. -/
def bind {α β : Type} (m : Eff α) (f : α → Eff β) : Eff β :=
  match m.result with
  | .ok a => after m.calls m.logs (f a)
  | .error e => ⟨m.calls, m.logs, .error e⟩

/-- The statement `try m catch (e) h e`. -/
def tryCatch {α : Type} (m : Eff α) (h : JsError → Eff α) : Eff α :=
  match m.result with
  | .ok _ => m
  | .error e => after m.calls m.logs (h e)

/-- A pure step that may throw. -/
def lift {α : Type} (r : Except JsError α) : Eff α := ⟨[], [], r⟩

/-- An awaited provider call: recorded, then resolved or rejected. -/
def invoke (stripe : Stripe) (c : Call) : Eff JsVal := ⟨[c], [], stripe.run c⟩

/-- A console line. -/
def console (l : LogLine) : Eff Unit := ⟨[], [l], .ok ()⟩

instance : Monad Eff where
  pure := Eff.pure
  bind := Eff.bind

end Eff

/-! ## `POST /create-payment-intent` (lines 12-81) -/

/-- The request of `/create-payment-intent`: `req.body` as left by
`express.json ()`. -/
structure Request where
  body : JsVal

/-- The response of the `catch` of lines 77-80 to the error `err`. -/
def errorResponse (err : JsError) : Response :=
  ⟨500, .json (.obj [("error", .str err.message)])⟩

/-- The price id chosen on line 25 for `plan`. -/
def chosenPriceId (env : Env) (plan : JsVal) : JsVal :=
  if plan.strictEqStr "annual" then envVal env.STRIPE_ANNUAL_PRICE_ID
  else envVal env.STRIPE_MONTHLY_PRICE_ID

/-- Customer resolution, lines 31-44: reuse the customer `customerId` names, or
create one from `email` and `metadata`. -/
def resolveCustomer (stripe : Stripe) (customerId email metadata : JsVal) : Eff JsVal := do
  -- let customer = null; if (customerId) try retrieve catch customer = null
  let customer ←
    if customerId.truthy then
      Eff.tryCatch (Eff.invoke stripe (.customersRetrieve customerId))
        (fun _ => Eff.pure .null)
    else Eff.pure .null
  -- if (!customer || customer.deleted)
  let recreate ←
    if !customer.truthy then Eff.pure true
    else do
      let deleted ← Eff.lift (customer.get "deleted")
      Eff.pure deleted.truthy
  if recreate then
    Eff.invoke stripe (.customersCreate (.obj [("email", email), ("metadata", metadata)]))
  else Eff.pure customer

/-- The argument of `stripe.subscriptions.create` on lines 47-53. -/
def subscriptionParams (customerId chosenPriceId metadata : JsVal) : JsVal :=
  .obj [
    ("customer", customerId),
    ("items", .arr [.obj [("price", chosenPriceId)]]),
    ("payment_behavior", .str "default_incomplete"),
    ("expand", .arr [.str "latest_invoice.payment_intent"]),
    ("metadata", metadata.or (.obj []))]

/-- Subscription creation and response, lines 47-58. -/
def createSubscription (stripe : Stripe) (customer chosenPriceId metadata : JsVal) :
    Eff Response := do
  let customerId ← Eff.lift (customer.get "id")
  let subscription ← Eff.invoke stripe
    (.subscriptionsCreate (subscriptionParams customerId chosenPriceId metadata))
  -- subscription.latest_invoice && subscription.latest_invoice.payment_intent
  let latestInvoice ← Eff.lift (subscription.get "latest_invoice")
  let paymentIntent ←
    if latestInvoice.truthy then Eff.lift (latestInvoice.get "payment_intent")
    else Eff.pure latestInvoice
  -- paymentIntent ? paymentIntent.client_secret : null
  let clientSecret ←
    if paymentIntent.truthy then Eff.lift (paymentIntent.get "client_secret")
    else Eff.pure .null
  let subscriptionId ← Eff.lift (subscription.get "id")
  let customerIdOut ← Eff.lift (customer.get "id")
  Eff.pure ⟨200, .json (.obj [
    ("clientSecret", clientSecret),
    ("subscriptionId", subscriptionId),
    ("customerId", customerIdOut)])⟩

/-- The amount computed on lines 64-69 from the request's `amount` and `plan`. -/
def intentAmount (amount plan : JsVal) : JsVal :=
  (if !amount.truthy && plan.truthy then
    (if plan.strictEqStr "annual" then JsVal.num 17990 else JsVal.num 1990)
  else amount).or (.num 1990)

/-- The argument of `stripe.paymentIntents.create` on lines 71-75. -/
def oneOffParams (amount currency : JsVal) : JsVal :=
  .obj [
    ("amount", amount),
    ("currency", currency),
    ("automatic_payment_methods", .obj [("enabled", .bool true)])]

/-- The default of the destructuring `currency = 'brl'` on line 63: it applies
to `undefined` only. -/
def currencyOrDefault (currency : JsVal) : JsVal :=
  match currency with
  | .undefined => .str "brl"
  | c => c

/-- The one-off fallback, lines 63-76. -/
def oneOffPayment (stripe : Stripe) (req : Request) (plan : JsVal) : Eff Response := do
  -- const { amount, currency = 'brl' } = req.body;
  let amount ← Eff.lift (req.body.destructure "amount" "req.body")
  let currency ← Eff.lift (req.body.destructure "currency" "req.body")
  let paymentIntent ← Eff.invoke stripe
    (.paymentIntentsCreate (oneOffParams (intentAmount amount plan) (currencyOrDefault currency)))
  let clientSecret ← Eff.lift (paymentIntent.get "client_secret")
  Eff.pure ⟨200, .json (.obj [("clientSecret", clientSecret)])⟩

/-- The `try` block of the handler, lines 13-76. -/
def createPaymentIntentTry (stripe : Stripe) (env : Env) (req : Request) : Eff Response := do
  -- const { plan, email } = req.body || {};
  let body := req.body.or (.obj [])
  let plan ← Eff.lift (body.destructure "plan" "(intermediate value)")
  let email ← Eff.lift (body.destructure "email" "(intermediate value)")
  let monthlyPrice := envVal env.STRIPE_MONTHLY_PRICE_ID
  let annualPrice := envVal env.STRIPE_ANNUAL_PRICE_ID
  if plan.truthy && (monthlyPrice.or annualPrice).truthy then
    -- const chosenPriceId = plan === 'annual' ? annualPrice : monthlyPrice;
    let chosenPriceId := chosenPriceId env plan
    if !chosenPriceId.truthy then
      Eff.pure ⟨400, .json (.obj [("error", .str "Requested plan not configured on server")])⟩
    else
      -- const { customerId, metadata } = req.body || {};
      let customerId ← Eff.lift (body.destructure "customerId" "(intermediate value)")
      let metadata ← Eff.lift (body.destructure "metadata" "(intermediate value)")
      let customer ← resolveCustomer stripe customerId email metadata
      createSubscription stripe customer chosenPriceId metadata
  else
    oneOffPayment stripe req plan

/-- The handler of `POST /create-payment-intent`, lines 12-81: the `try` block
and the `catch` that logs the error and answers 500 with its message. -/
def createPaymentIntent (stripe : Stripe) (env : Env) (req : Request) : Eff Response :=
  Eff.tryCatch (createPaymentIntentTry stripe env req)
    (fun err => do
      Eff.console (.error [.err err])
      Eff.pure (errorResponse err))

/-! ## `POST /webhook` (lines 86-127) -/

/-- The built-in `JSON` object. -/
structure Json where
  parse : String → Except JsError JsVal

/-- The request of `/webhook`: `req.body` and the request headers. -/
structure WebhookRequest where
  body : ReqBody
  headers : List (String × String)

/-- The expression `req.body && JSON.parse (req.body.toString ())` of line 93. -/
def parseBody (JSON : Json) : ReqBody → Except JsError JsVal
  | .absent => .ok .undefined
  | .raw text => JSON.parse text
  | .parsed value => if value.truthy then JSON.parse value.toStr else .ok value

/-- The header read `req.headers[name]`. -/
def WebhookRequest.header (req : WebhookRequest) (name : String) : JsVal :=
  match req.headers.lookup name with
  | some v => .str v
  | none => .undefined

/-- The verification / parsing step of `/webhook` (lines 91-96): the value
assigned to `event`, or the error thrown inside the `try`. -/
def webhookEvent (stripe : Stripe) (JSON : Json) (env : Env) (req : WebhookRequest) :
    Except JsError JsVal :=
  let sig := req.header "stripe-signature"
  match env.STRIPE_WEBHOOK_SECRET with
  | some endpointSecret =>
    -- if (!endpointSecret)
    if endpointSecret == "" then parseBody JSON req.body
    else stripe.webhooks.constructEvent req.body sig endpointSecret
  | none => parseBody JSON req.body

/-- The `switch (event.type)` of `/webhook` (lines 103-124). -/
def webhookDispatch (event : JsVal) : Eff Unit := do
  let type ← Eff.lift (event.get "type")
  if type.strictEqStr "invoice.payment_succeeded" then
    let data ← Eff.lift (event.get "data")
    let invoice ← Eff.lift (data.get "object")
    let id ← Eff.lift (invoice.get "id")
    Eff.console (.log [.val (.str "Invoice payment succeeded:"), .val id])
  else if type.strictEqStr "customer.subscription.updated" then
    let data ← Eff.lift (event.get "data")
    let subscription ← Eff.lift (data.get "object")
    let id ← Eff.lift (subscription.get "id")
    let status ← Eff.lift (subscription.get "status")
    Eff.console (.log [.val (.str "Subscription updated:"), .val id, .val status])
  else if type.strictEqStr "invoice.payment_failed" then
    let data ← Eff.lift (event.get "data")
    let invoice ← Eff.lift (data.get "object")
    let id ← Eff.lift (invoice.get "id")
    Eff.console (.log [.val (.str "Invoice payment failed:"), .val id])
  else
    Eff.console (.log [.val (.str "Unhandled event type "), .val type])

/-- The handler of `POST /webhook`. A `result` that is an error is an exception
the handler leaves uncaught: it sent no response of its own. -/
def webhook (stripe : Stripe) (JSON : Json) (env : Env) (req : WebhookRequest) :
    Eff Response :=
  match webhookEvent stripe JSON env req with
  | .error err => do
    Eff.console (.error [.val (.str "⚠️  Webhook signature verification failed."),
      .val (.str err.message)])
    Eff.pure ⟨400, .text ("Webhook Error: " ++ err.message)⟩
  | .ok event => do
    webhookDispatch event
    Eff.pure ⟨200, .json (.obj [("received", .bool true)])⟩

/-! ## Reading requests and values in statements -/

/-- The field `k` of the request body as the handler destructures it from
`req.body || {}`: `undefined` when the body or the field is missing. -/
def Request.field (req : Request) (k : String) : JsVal :=
  match (req.body.or (.obj [])).destructure k "(intermediate value)" with
  | .ok v => v
  | .error _ => .undefined

/-- The total property read: `v.k` where that read does not throw, `undefined`
where it does. -/
def JsVal.prop (v : JsVal) (k : String) : JsVal :=
  match v with
  | .obj fields => JsVal.lookup fields k
  | _ => .undefined

/-! ## Concrete providers, environments and requests -/

/-- An event of type `invoice.payment_succeeded`, as the provider sends it. -/
def signedEvent : JsVal :=
  .obj [("id", .str "evt_1"), ("type", .str "invoice.payment_succeeded"),
    ("data", .obj [("object", .obj [("id", .str "in_1")])])]

/-- The bytes the provider posts for `signedEvent`: its JSON text. -/
def signedEventText : String :=
  "\x7b\"id\":\"evt_1\",\"type\":\"invoice.payment_succeeded\"," ++
  "\"data\":\x7b\"object\":\x7b\"id\":\"in_1\"\x7d\x7d\x7d"

/-- The `stripe-signature` header posted with `signedEventText`, taken to be the
one that signs it under the secret `whsec_test` (the digest is abridged). -/
def signedEventHeader : String := "t=1700000000,v1=5a1f0c"

/-- The function `stripe.webhooks.constructEvent` on the one event
`signedEvent`, standing for the SDK: it signs the raw bytes, so it returns the
event when given the `Buffer` of `signedEventText`, the header that signs it and
the secret `whsec_test`, and throws the signature error on anything else, a
payload that is an already parsed object included. -/
def sdkConstructEvent (payload : ReqBody) (header : JsVal) (secret : String) :
    Except JsError JsVal :=
  match payload with
  | .raw text =>
    if text == signedEventText && header.strictEqStr signedEventHeader &&
        secret == "whsec_test" then .ok signedEvent
    else .error ⟨"No signatures found matching the expected signature for payload"⟩
  | _ => .error ⟨"No signatures found matching the expected signature for payload"⟩

/-- A provider on which every call succeeds. -/
def stripeOk : Stripe where
  customers :=
    { retrieve := fun id => .ok (.obj [("id", id)])
      create := fun _ => .ok (.obj [("id", .str "cus_new")]) }
  subscriptions :=
    { create := fun _ => .ok (.obj [("id", .str "sub_1"),
        ("latest_invoice", .obj [("payment_intent", .obj [("client_secret", .str "pi_secret")])])]) }
  paymentIntents := { create := fun _ => .ok (.obj [("client_secret", .str "pi_secret")]) }
  webhooks := { constructEvent := sdkConstructEvent }

/-- No price id and no signing secret configured. -/
def envNone : Env := ⟨none, none, none⟩

/-- Only the monthly price id configured. -/
def envMonthlyOnly : Env := ⟨some "price_monthly", none, none⟩

/-- The request body `{ plan: "annual" }`. -/
def reqAnnual : Request := ⟨.obj [("plan", .str "annual")]⟩

/-- The request body `{ plan: "monthly" }`. -/
def reqMonthly : Request := ⟨.obj [("plan", .str "monthly")]⟩

/-- The empty request body. -/
def reqEmpty : Request := ⟨.obj []⟩

/-- The request body `{ currency: "usd" }`. -/
def reqUsd : Request := ⟨.obj [("currency", .str "usd")]⟩

/-- The request body `{ plan: "annual", amount: 500 }`. -/
def reqAnnual500 : Request := ⟨.obj [("plan", .str "annual"), ("amount", .num 500)]⟩

/-- The request body `{ amount: 0 }`. -/
def reqZero : Request := ⟨.obj [("amount", .num 0)]⟩

/-- The request body `{ amount: 500 }`. -/
def reqAmount500 : Request := ⟨.obj [("amount", .num 500)]⟩

/-! ## The subscription path in statements -/

/-- The value of `customer` after lines 31-41: the retrieved customer, or `null`
when no `customerId` was given or the retrieval failed. -/
def retrievedCustomer (stripe : Stripe) (customerId : JsVal) : JsVal :=
  if customerId.truthy then
    match stripe.customers.retrieve customerId with
    | .ok customer => customer
    | .error _ => .null
  else .null

/-- The test of line 42, `!customer || customer.deleted`. -/
def needsNewCustomer (customer : JsVal) : Bool :=
  !customer.truthy || (customer.prop "deleted").truthy

/-- The client secret lines 55-56 extract from a subscription. -/
def subscriptionSecret (subscription : JsVal) : JsVal :=
  let latestInvoice := subscription.prop "latest_invoice"
  let paymentIntent :=
    if latestInvoice.truthy then latestInvoice.prop "payment_intent" else latestInvoice
  if paymentIntent.truthy then paymentIntent.prop "client_secret" else .null

/-- The response of line 58. -/
def subscriptionResponse (subscription customer : JsVal) : Response :=
  ⟨200, .json (.obj [
    ("clientSecret", subscriptionSecret subscription),
    ("subscriptionId", subscription.prop "id"),
    ("customerId", customer.prop "id")])⟩

/-- Whether a call is `customers.retrieve`. -/
def Call.isRetrieve : Call → Bool
  | .customersRetrieve _ => true
  | _ => false

/-- Whether a call is `customers.create`. -/
def Call.isCustomersCreate : Call → Bool
  | .customersCreate _ => true
  | _ => false

/-- The request body `{ plan: "monthly", customerId: "cus_1" }`. -/
def reqMonthlyCustomer : Request :=
  ⟨.obj [("plan", .str "monthly"), ("customerId", .str "cus_1")]⟩

/-- A run in which every failing provider call other than `customers.retrieve`
is the last call made and its error is the one the run throws. -/
def FailFast (stripe : Stripe) {α : Type} (m : Eff α) : Prop :=
  ∀ c e, c ∈ m.calls → c.isRetrieve = false → stripe.run c = .error e →
    m.result = .error e ∧ ∃ pre, m.calls = pre ++ [c]

/-- A provider that knows no customer: `customers.retrieve` rejects, every
other call succeeds. -/
def stripeRetrieveFails : Stripe :=
  { stripeOk with
    customers :=
      { retrieve := fun _ => .error ⟨"No such customer"⟩
        create := fun _ => .ok (.obj [("id", .str "cus_new")]) } }

/-- A provider whose `customers.retrieve` resolves with `null`; every other call
succeeds. -/
def stripeRetrieveNull : Stripe :=
  { stripeOk with
    customers :=
      { retrieve := fun _ => .ok .null
        create := fun _ => .ok (.obj [("id", .str "cus_new")]) } }

/-- A provider on which `customers.create` rejects. -/
def stripeCreateFails : Stripe :=
  { stripeOk with
    customers :=
      { retrieve := fun id => .ok (.obj [("id", id)])
        create := fun _ => .error ⟨"Invalid email address"⟩ } }

/-! ## The webhook in statements -/

/-- Whether `type` is one of the three event types the `switch` names. -/
def handledType (type : JsVal) : Bool :=
  type.strictEqStr "invoice.payment_succeeded" ||
  type.strictEqStr "customer.subscription.updated" ||
  type.strictEqStr "invoice.payment_failed"

/-- A signing secret configured, no price id. -/
def envSecret : Env := ⟨none, none, some "whsec_test"⟩

/-- The request the handler receives when the provider posts `signedEvent` as
`application/json` with its valid signature: line 8 has parsed the body. -/
def reqSignedEvent : WebhookRequest :=
  ⟨.parsed signedEvent, [("stripe-signature", signedEventHeader)]⟩

/-- The request the handler receives when `signedEvent` is posted with a header
that does not sign it. -/
def reqForgedEvent : WebhookRequest :=
  ⟨.parsed signedEvent, [("stripe-signature", "t=1700000000,v1=00")]⟩

/-- The built-in `JSON.parse` on a text that is not JSON, such as the
`[object Object]` a parsed body prints as: a `SyntaxError`. This stand-in serves
the runs that give `JSON.parse` no other text, or do not call it. -/
def jsonNotJson : Json where
  parse := fun _ => .error ⟨"Unexpected token o in JSON at position 1"⟩

/-! ## Theorems -/

/-! ## Lemmas on values and effects -/

theorem JsVal.strictEqStr_iff (v : JsVal) (s : String) :
    v.strictEqStr s = true ↔ v = .str s := by
  cases v <;> simp [JsVal.strictEqStr]

theorem JsVal.nullish_of_truthy (v : JsVal) (h : v.truthy = true) : v.nullish = false := by
  cases v <;> simp_all [JsVal.truthy, JsVal.nullish]

theorem JsVal.get_of_not_nullish (v : JsVal) (k : String) (h : v.nullish = false) :
    v.get k = .ok (v.prop k) := by
  cases v <;> simp_all [JsVal.nullish, JsVal.get, JsVal.prop]

theorem JsVal.get_of_truthy (v : JsVal) (k : String) (h : v.truthy = true) :
    v.get k = .ok (v.prop k) :=
  JsVal.get_of_not_nullish v k (JsVal.nullish_of_truthy v h)

theorem JsVal.or_truthy_of_left (a b : JsVal) (h : a.truthy = true) : (a.or b).truthy = true := by
  simp [JsVal.or, h]

theorem JsVal.or_truthy_of_right (a b : JsVal) (h : b.truthy = true) : (a.or b).truthy = true := by
  unfold JsVal.or
  split <;> simp_all

theorem JsVal.or_falsy (a b : JsVal) (ha : a.truthy = false) (hb : b.truthy = false) :
    (a.or b).truthy = false := by
  simp [JsVal.or, ha, hb]

theorem Request.get_or (req : Request) (k : String) :
    (req.body.or (.obj [])).destructure k "(intermediate value)" = .ok (req.field k) := by
  unfold Request.field
  cases req.body with
  | bool b => cases b <;> rfl
  | num n => by_cases h : n = 0 <;> simp [JsVal.or, JsVal.truthy, JsVal.destructure, h]
  | str s => by_cases h : s = "" <;> simp [JsVal.or, JsVal.truthy, JsVal.destructure, h]
  | _ => rfl

theorem Request.get_body (req : Request) (k : String) (h : req.body.nullish = false) :
    req.body.destructure k "req.body" = .ok (req.field k) := by
  unfold Request.field
  revert h
  cases req.body with
  | undefined => simp [JsVal.nullish]
  | null => simp [JsVal.nullish]
  | bool b => cases b <;> intro _ <;> rfl
  | num n =>
    by_cases h : n = 0 <;> simp [JsVal.or, JsVal.truthy, JsVal.destructure, JsVal.lookup, h]
  | str s =>
    by_cases h : s = "" <;> simp [JsVal.or, JsVal.truthy, JsVal.destructure, JsVal.lookup, h]
  | _ => intro _; rfl

theorem Request.body_of_field (req : Request) (k : String) (h : (req.field k).truthy = true) :
    req.body.nullish = false := by
  revert h
  unfold Request.field
  cases req.body <;>
    simp [JsVal.nullish, JsVal.or, JsVal.truthy, JsVal.destructure, JsVal.lookup]

namespace Eff

@[simp]
theorem after_mk {α : Type} (cs cs1 : List Call) (ls ls1 : List LogLine)
    (r : Except JsError α) :
    after cs ls (⟨cs1, ls1, r⟩ : Eff α) = ⟨cs ++ cs1, ls ++ ls1, r⟩ := rfl

@[simp]
theorem after_nil {α : Type} (m : Eff α) : after [] [] m = m := rfl

@[simp]
theorem bind_ok {α β : Type} (cs : List Call) (ls : List LogLine) (a : α)
    (f : α → Eff β) :
    Eff.bind ⟨cs, ls, .ok a⟩ f = after cs ls (f a) := rfl

@[simp]
theorem bind_error {α β : Type} (cs : List Call) (ls : List LogLine) (e : JsError)
    (f : α → Eff β) :
    Eff.bind ⟨cs, ls, .error e⟩ f = ⟨cs, ls, .error e⟩ := rfl

@[simp]
theorem tryCatch_ok {α : Type} (cs : List Call) (ls : List LogLine) (a : α)
    (h : JsError → Eff α) :
    Eff.tryCatch ⟨cs, ls, .ok a⟩ h = ⟨cs, ls, .ok a⟩ := rfl

@[simp]
theorem tryCatch_error {α : Type} (cs : List Call) (ls : List LogLine) (e : JsError)
    (h : JsError → Eff α) :
    Eff.tryCatch ⟨cs, ls, .error e⟩ h = after cs ls (h e) := rfl

theorem bind_eq {α β : Type} (m : Eff α) (f : α → Eff β) : m >>= f = Eff.bind m f := rfl

end Eff

/-! ## The one-off path -/

theorem intentAmount_of_truthy (amount plan : JsVal) (h : amount.truthy = true) :
    intentAmount amount plan = amount := by
  simp [intentAmount, JsVal.or, h]

theorem intentAmount_annual (amount plan : JsVal) (h : amount.truthy = false)
    (hannual : plan.strictEqStr "annual" = true) :
    intentAmount amount plan = .num 17990 := by
  have hplan : plan.truthy = true := by
    rw [(JsVal.strictEqStr_iff plan "annual").1 hannual]
    rfl
  have h1 : (JsVal.num 17990).truthy = true := rfl
  simp [intentAmount, JsVal.or, h, hplan, hannual, h1]

theorem intentAmount_other (amount plan : JsVal) (h : amount.truthy = false)
    (hplan : plan.truthy = true) (hannual : plan.strictEqStr "annual" = false) :
    intentAmount amount plan = .num 1990 := by
  have h1 : (JsVal.num 1990).truthy = true := rfl
  simp [intentAmount, JsVal.or, h, hplan, hannual, h1]

theorem intentAmount_default (amount plan : JsVal) (h : amount.truthy = false)
    (hplan : plan.truthy = false) :
    intentAmount amount plan = .num 1990 := by
  simp [intentAmount, JsVal.or, h, hplan]

/-- The one-off fallback makes the single call `paymentIntents.create` and
answers from its outcome. -/
theorem oneOffPayment_run (stripe : Stripe) (req : Request) (plan : JsVal)
    (hbody : req.body.nullish = false) :
    oneOffPayment stripe req plan =
      match stripe.paymentIntents.create
          (oneOffParams (intentAmount (req.field "amount") plan)
            (currencyOrDefault (req.field "currency"))) with
      | .ok paymentIntent =>
        (match paymentIntent.get "client_secret" with
        | .ok clientSecret =>
          ⟨[.paymentIntentsCreate (oneOffParams (intentAmount (req.field "amount") plan)
              (currencyOrDefault (req.field "currency")))],
            [], .ok ⟨200, .json (.obj [("clientSecret", clientSecret)])⟩⟩
        | .error e =>
          ⟨[.paymentIntentsCreate (oneOffParams (intentAmount (req.field "amount") plan)
              (currencyOrDefault (req.field "currency")))],
            [], .error e⟩)
      | .error e =>
        ⟨[.paymentIntentsCreate (oneOffParams (intentAmount (req.field "amount") plan)
            (currencyOrDefault (req.field "currency")))],
          [], .error e⟩ := by
  simp only [oneOffPayment, Request.get_body req _ hbody, Eff.bind_eq, Eff.lift, Eff.pure,
    Eff.invoke, Eff.bind_ok, Eff.after_nil, Stripe.run]
  cases stripe.paymentIntents.create (oneOffParams (intentAmount (req.field "amount") plan)
      (currencyOrDefault (req.field "currency"))) with
  | error e => rfl
  | ok paymentIntent =>
    simp only [Eff.bind_ok]
    cases paymentIntent.get "client_secret" <;> rfl

/-- When no plan is requested or no price id is configured, the `try` block is
the one-off fallback. -/
theorem try_oneOff (stripe : Stripe) (env : Env) (req : Request)
    (hpath : ((req.field "plan").truthy &&
      ((envVal env.STRIPE_MONTHLY_PRICE_ID).or (envVal env.STRIPE_ANNUAL_PRICE_ID)).truthy) = false) :
    createPaymentIntentTry stripe env req = oneOffPayment stripe req (req.field "plan") := by
  simp only [createPaymentIntentTry, Request.get_or, Eff.bind_eq, Eff.lift, Eff.bind_ok,
    Eff.after_nil, hpath, Bool.false_eq_true, if_false]

/-- The whole handler on the one-off path. -/
theorem oneOff_run (stripe : Stripe) (env : Env) (req : Request)
    (hbody : req.body.nullish = false)
    (hpath : ((req.field "plan").truthy &&
      ((envVal env.STRIPE_MONTHLY_PRICE_ID).or (envVal env.STRIPE_ANNUAL_PRICE_ID)).truthy) = false) :
    createPaymentIntent stripe env req =
      match stripe.paymentIntents.create
          (oneOffParams (intentAmount (req.field "amount") (req.field "plan"))
            (currencyOrDefault (req.field "currency"))) with
      | .ok paymentIntent =>
        (match paymentIntent.get "client_secret" with
        | .ok clientSecret =>
          ⟨[.paymentIntentsCreate (oneOffParams (intentAmount (req.field "amount") (req.field "plan"))
              (currencyOrDefault (req.field "currency")))],
            [], .ok ⟨200, .json (.obj [("clientSecret", clientSecret)])⟩⟩
        | .error e =>
          ⟨[.paymentIntentsCreate (oneOffParams (intentAmount (req.field "amount") (req.field "plan"))
              (currencyOrDefault (req.field "currency")))],
            [.error [.err e]], .ok (errorResponse e)⟩)
      | .error e =>
        ⟨[.paymentIntentsCreate (oneOffParams (intentAmount (req.field "amount") (req.field "plan"))
            (currencyOrDefault (req.field "currency")))],
          [.error [.err e]], .ok (errorResponse e)⟩ := by
  rw [createPaymentIntent, try_oneOff stripe env req hpath, oneOffPayment_run stripe req _ hbody]
  cases stripe.paymentIntents.create (oneOffParams (intentAmount (req.field "amount") (req.field "plan"))
      (currencyOrDefault (req.field "currency"))) with
  | error e => rfl
  | ok paymentIntent =>
    dsimp only
    cases paymentIntent.get "client_secret" <;> rfl

/-- On the one-off path exactly one provider call is made. -/
theorem oneOff_calls (stripe : Stripe) (env : Env) (req : Request)
    (hbody : req.body.nullish = false)
    (hpath : ((req.field "plan").truthy &&
      ((envVal env.STRIPE_MONTHLY_PRICE_ID).or (envVal env.STRIPE_ANNUAL_PRICE_ID)).truthy) = false) :
    (createPaymentIntent stripe env req).calls =
      [.paymentIntentsCreate (oneOffParams (intentAmount (req.field "amount") (req.field "plan"))
        (currencyOrDefault (req.field "currency")))] := by
  rw [oneOff_run stripe env req hbody hpath]
  cases stripe.paymentIntents.create (oneOffParams (intentAmount (req.field "amount") (req.field "plan"))
      (currencyOrDefault (req.field "currency"))) with
  | error e => rfl
  | ok paymentIntent =>
    dsimp only
    cases paymentIntent.get "client_secret" <;> rfl

/-- On the one-off path a payment intent object is answered with its secret. -/
theorem oneOff_result (stripe : Stripe) (env : Env) (req : Request)
    (hbody : req.body.nullish = false)
    (hpath : ((req.field "plan").truthy &&
      ((envVal env.STRIPE_MONTHLY_PRICE_ID).or (envVal env.STRIPE_ANNUAL_PRICE_ID)).truthy) = false)
    (fields : List (String × JsVal))
    (hok : stripe.paymentIntents.create
      (oneOffParams (intentAmount (req.field "amount") (req.field "plan"))
        (currencyOrDefault (req.field "currency"))) = .ok (.obj fields)) :
    (createPaymentIntent stripe env req).result =
      .ok ⟨200, .json (.obj [("clientSecret", JsVal.lookup fields "client_secret")])⟩ := by
  rw [oneOff_run stripe env req hbody hpath, hok]
  rfl

/-- On the one-off path the handler never answers 400. -/
theorem oneOff_status (stripe : Stripe) (env : Env) (req : Request)
    (hbody : req.body.nullish = false)
    (hpath : ((req.field "plan").truthy &&
      ((envVal env.STRIPE_MONTHLY_PRICE_ID).or (envVal env.STRIPE_ANNUAL_PRICE_ID)).truthy) = false) :
    ∃ r, (createPaymentIntent stripe env req).result = .ok r ∧ (r.status = 200 ∨ r.status = 500) := by
  rw [oneOff_run stripe env req hbody hpath]
  cases stripe.paymentIntents.create (oneOffParams (intentAmount (req.field "amount") (req.field "plan"))
      (currencyOrDefault (req.field "currency"))) with
  | error e => exact ⟨_, rfl, Or.inr rfl⟩
  | ok paymentIntent =>
    dsimp only
    cases paymentIntent.get "client_secret" with
    | error e => exact ⟨_, rfl, Or.inr rfl⟩
    | ok s => exact ⟨_, rfl, Or.inl rfl⟩

/-! ## Claims on plan selection and the one-off path -/

/-- C1: when the request has a plan (a truthy `plan`, so not the empty string)
and at least one of the monthly / annual price ids is configured, but the price
id chosen for the plan (the annual one for `plan === "annual"`, the monthly one
for every other plan) is not configured, the handler makes no provider call and
answers 400 with the error `Requested plan not configured on server`. -/
theorem plan_not_configured (stripe : Stripe) (env : Env) (req : Request)
    (hplan : (req.field "plan").truthy = true)
    (hcfg : ((envVal env.STRIPE_MONTHLY_PRICE_ID).truthy ||
      (envVal env.STRIPE_ANNUAL_PRICE_ID).truthy) = true)
    (hsel : (chosenPriceId env (req.field "plan")).truthy = false) :
    (createPaymentIntent stripe env req).calls = [] ∧
    (createPaymentIntent stripe env req).result =
      .ok ⟨400, .json (.obj [("error", .str "Requested plan not configured on server")])⟩ := by
  have hor : ((envVal env.STRIPE_MONTHLY_PRICE_ID).or
      (envVal env.STRIPE_ANNUAL_PRICE_ID)).truthy = true := by
    rcases Bool.or_eq_true_iff.1 hcfg with h | h
    · exact JsVal.or_truthy_of_left _ _ h
    · exact JsVal.or_truthy_of_right _ _ h
  have hrun : createPaymentIntent stripe env req =
      ⟨[], [], .ok ⟨400, .json (.obj [("error", .str "Requested plan not configured on server")])⟩⟩ := by
    simp only [createPaymentIntent, createPaymentIntentTry, Request.get_or, Eff.bind_eq, Eff.lift,
      Eff.pure, Eff.bind_ok, Eff.after_nil, hplan, hor, hsel, Bool.and_self, Bool.not_false,
      if_true, Eff.tryCatch_ok]
  rw [hrun]
  exact ⟨rfl, rfl⟩

/-- C1, witness: plan `annual` with only the monthly price configured. -/
theorem plan_not_configured_witness :
    (reqAnnual.field "plan").truthy = true ∧
    ((envVal envMonthlyOnly.STRIPE_MONTHLY_PRICE_ID).truthy ||
      (envVal envMonthlyOnly.STRIPE_ANNUAL_PRICE_ID).truthy) = true ∧
    (chosenPriceId envMonthlyOnly (reqAnnual.field "plan")).truthy = false ∧
    (createPaymentIntent stripeOk envMonthlyOnly reqAnnual).calls = [] ∧
    (createPaymentIntent stripeOk envMonthlyOnly reqAnnual).result =
      .ok ⟨400, .json (.obj [("error", .str "Requested plan not configured on server")])⟩ :=
  ⟨rfl, rfl, rfl, plan_not_configured stripeOk envMonthlyOnly reqAnnual rfl rfl rfl⟩

/-- C2, as stated, fails: a request with no plan and no amount that names the
currency `usd` has its payment intent created in `usd`, not in `brl`. -/
theorem currency_usd_counterexample :
    reqUsd.field "plan" = .undefined ∧ reqUsd.field "amount" = .undefined ∧
    (createPaymentIntent stripeOk envNone reqUsd).calls =
      [.paymentIntentsCreate (oneOffParams (.num 1990) (.str "usd"))] ∧
    (createPaymentIntent stripeOk envNone reqUsd).calls ≠
      [.paymentIntentsCreate (oneOffParams (.num 1990) (.str "brl"))] := by
  refine ⟨rfl, rfl, rfl, ?_⟩
  have h : (createPaymentIntent stripeOk envNone reqUsd).calls =
      [.paymentIntentsCreate (oneOffParams (.num 1990) (.str "usd"))] := rfl
  rw [h]
  simp [oneOffParams]

/-- C2 (amended): for a request with a body but no plan and no amount, whatever
price ids are configured, the handler makes exactly one provider call,
`paymentIntents.create` with amount 1990, the currency of the request (`brl`
when the request names none) and automatic payment methods enabled; no customer
and no subscription is created; and when that call returns a payment intent
object the response is 200 with the single field `clientSecret`. -/
theorem no_plan_no_amount (stripe : Stripe) (env : Env) (req : Request)
    (hbody : req.body.nullish = false)
    (hplan : req.field "plan" = .undefined) (hamount : req.field "amount" = .undefined) :
    (createPaymentIntent stripe env req).calls =
      [.paymentIntentsCreate (.obj [
        ("amount", .num 1990),
        ("currency", currencyOrDefault (req.field "currency")),
        ("automatic_payment_methods", .obj [("enabled", .bool true)])])] ∧
    (req.field "currency" = .undefined → currencyOrDefault (req.field "currency") = .str "brl") ∧
    (∀ fields, stripe.paymentIntents.create (.obj [
        ("amount", .num 1990),
        ("currency", currencyOrDefault (req.field "currency")),
        ("automatic_payment_methods", .obj [("enabled", .bool true)])]) = .ok (.obj fields) →
      (createPaymentIntent stripe env req).result =
        .ok ⟨200, .json (.obj [("clientSecret", JsVal.lookup fields "client_secret")])⟩) := by
  have hpath : ((req.field "plan").truthy &&
      ((envVal env.STRIPE_MONTHLY_PRICE_ID).or (envVal env.STRIPE_ANNUAL_PRICE_ID)).truthy) = false := by
    rw [hplan]; rfl
  have hamt : intentAmount (req.field "amount") (req.field "plan") = .num 1990 := by
    rw [hplan, hamount]; rfl
  refine ⟨?_, ?_, ?_⟩
  · have h := oneOff_calls stripe env req hbody hpath
    rw [hamt] at h
    exact h
  · intro h
    rw [h]
    rfl
  · intro fields hok
    have h := oneOff_result stripe env req hbody hpath fields
    rw [hamt] at h
    exact h hok

/-- C2 (amended), witness: the empty body. -/
theorem no_plan_no_amount_witness :
    (createPaymentIntent stripeOk envMonthlyOnly reqEmpty).calls =
      [.paymentIntentsCreate (.obj [
        ("amount", .num 1990),
        ("currency", .str "brl"),
        ("automatic_payment_methods", .obj [("enabled", .bool true)])])] ∧
    (createPaymentIntent stripeOk envMonthlyOnly reqEmpty).result =
      .ok ⟨200, .json (.obj [("clientSecret", .str "pi_secret")])⟩ :=
  ⟨(no_plan_no_amount stripeOk envMonthlyOnly reqEmpty rfl rfl rfl).1,
    (no_plan_no_amount stripeOk envMonthlyOnly reqEmpty rfl rfl rfl).2.2
      [("client_secret", .str "pi_secret")] rfl⟩

/-- C3, as stated, fails: with plan `annual`, no price id configured and an
explicit amount 500, the amount passed to `paymentIntents.create` is 500, not
17990. -/
theorem explicit_amount_beats_annual_counterexample :
    reqAnnual500.field "plan" = .str "annual" ∧
    (envVal envNone.STRIPE_MONTHLY_PRICE_ID).truthy = false ∧
    (envVal envNone.STRIPE_ANNUAL_PRICE_ID).truthy = false ∧
    (createPaymentIntent stripeOk envNone reqAnnual500).calls =
      [.paymentIntentsCreate (oneOffParams (.num 500) (.str "brl"))] ∧
    (createPaymentIntent stripeOk envNone reqAnnual500).calls ≠
      [.paymentIntentsCreate (oneOffParams (.num 17990) (.str "brl"))] := by
  refine ⟨rfl, rfl, rfl, rfl, ?_⟩
  have h : (createPaymentIntent stripeOk envNone reqAnnual500).calls =
      [.paymentIntentsCreate (oneOffParams (.num 500) (.str "brl"))] := rfl
  rw [h]
  simp [oneOffParams]

/-- C3 (amended): for a request with plan `annual` when neither price id is
configured, the handler takes the one-off path: its only provider call is
`paymentIntents.create`, it answers 200 or 500 and never 400, and the amount
passed is 17990 when the request carries no amount (`undefined`, or a falsy
value such as 0) and the amount of the request otherwise. -/
theorem annual_fallback (stripe : Stripe) (env : Env) (req : Request)
    (hplan : req.field "plan" = .str "annual")
    (hm : (envVal env.STRIPE_MONTHLY_PRICE_ID).truthy = false)
    (ha : (envVal env.STRIPE_ANNUAL_PRICE_ID).truthy = false) :
    (createPaymentIntent stripe env req).calls =
      [.paymentIntentsCreate (.obj [
        ("amount", if (req.field "amount").truthy then req.field "amount" else .num 17990),
        ("currency", currencyOrDefault (req.field "currency")),
        ("automatic_payment_methods", .obj [("enabled", .bool true)])])] ∧
    (∃ r, (createPaymentIntent stripe env req).result = .ok r ∧
      (r.status = 200 ∨ r.status = 500)) := by
  have hpath : ((req.field "plan").truthy &&
      ((envVal env.STRIPE_MONTHLY_PRICE_ID).or (envVal env.STRIPE_ANNUAL_PRICE_ID)).truthy) = false := by
    rw [JsVal.or_falsy _ _ hm ha]
    simp
  have hbody : req.body.nullish = false :=
    Request.body_of_field req "plan" (by rw [hplan]; rfl)
  have hamt : intentAmount (req.field "amount") (req.field "plan") =
      if (req.field "amount").truthy then req.field "amount" else .num 17990 := by
    cases hamount : (req.field "amount").truthy
    · rw [intentAmount_annual _ _ hamount (by rw [hplan]; rfl)]
      simp
    · rw [intentAmount_of_truthy _ _ hamount]
      simp
  refine ⟨?_, oneOff_status stripe env req hbody hpath⟩
  have h := oneOff_calls stripe env req hbody hpath
  rw [hamt] at h
  exact h

/-- C3 (amended), witness: the body `{ plan: "annual" }`, nothing configured. -/
theorem annual_fallback_witness :
    (createPaymentIntent stripeOk envNone reqAnnual).calls =
      [.paymentIntentsCreate (.obj [
        ("amount", .num 17990),
        ("currency", .str "brl"),
        ("automatic_payment_methods", .obj [("enabled", .bool true)])])] :=
  (annual_fallback stripeOk envNone reqAnnual rfl rfl rfl).1

/-- C4, as stated, fails at the explicit amount 0: the request `{ amount: 0 }`
takes the one-off path and the amount passed is 1990, not 0. -/
theorem amount_zero_counterexample :
    reqZero.field "amount" = .num 0 ∧
    (createPaymentIntent stripeOk envNone reqZero).calls =
      [.paymentIntentsCreate (oneOffParams (.num 1990) (.str "brl"))] ∧
    (createPaymentIntent stripeOk envNone reqZero).calls ≠
      [.paymentIntentsCreate (oneOffParams (.num 0) (.str "brl"))] := by
  refine ⟨rfl, rfl, ?_⟩
  have h : (createPaymentIntent stripeOk envNone reqZero).calls =
      [.paymentIntentsCreate (oneOffParams (.num 1990) (.str "brl"))] := rfl
  rw [h]
  simp [oneOffParams]

/-- C4 (amended): for every request with a body that takes the one-off path (no
truthy plan, or no price id configured), the only provider call is
`paymentIntents.create` and the amount passed to it is: the amount of the
request when that is a non-zero integer (more generally, any truthy value);
otherwise (no amount, or the amount 0), 17990 for plan `annual` and 1990 for
any other plan, when a plan was given; otherwise 1990. -/
theorem amount_resolution (stripe : Stripe) (env : Env) (req : Request)
    (hbody : req.body.nullish = false)
    (hpath : ((req.field "plan").truthy &&
      ((envVal env.STRIPE_MONTHLY_PRICE_ID).or (envVal env.STRIPE_ANNUAL_PRICE_ID)).truthy) = false) :
    (createPaymentIntent stripe env req).calls =
      [.paymentIntentsCreate (.obj [
        ("amount", intentAmount (req.field "amount") (req.field "plan")),
        ("currency", currencyOrDefault (req.field "currency")),
        ("automatic_payment_methods", .obj [("enabled", .bool true)])])] ∧
    (∀ n : Int, n ≠ 0 → req.field "amount" = .num n →
      intentAmount (req.field "amount") (req.field "plan") = .num n) ∧
    ((req.field "amount").truthy = true →
      intentAmount (req.field "amount") (req.field "plan") = req.field "amount") ∧
    ((req.field "amount").truthy = false → (req.field "plan").truthy = true →
      (req.field "plan").strictEqStr "annual" = true →
      intentAmount (req.field "amount") (req.field "plan") = .num 17990) ∧
    ((req.field "amount").truthy = false → (req.field "plan").truthy = true →
      (req.field "plan").strictEqStr "annual" = false →
      intentAmount (req.field "amount") (req.field "plan") = .num 1990) ∧
    ((req.field "amount").truthy = false → (req.field "plan").truthy = false →
      intentAmount (req.field "amount") (req.field "plan") = .num 1990) := by
  refine ⟨oneOff_calls stripe env req hbody hpath, ?_, ?_, ?_, ?_, ?_⟩
  · intro n hn hamount
    rw [hamount]
    exact intentAmount_of_truthy _ _ (by simp [JsVal.truthy, hn])
  · intro hamount
    exact intentAmount_of_truthy _ _ hamount
  · intro hamount _ hannual
    exact intentAmount_annual _ _ hamount hannual
  · intro hamount hplan hannual
    exact intentAmount_other _ _ hamount hplan hannual
  · intro hamount hplan
    exact intentAmount_default _ _ hamount hplan

/-- C4 (amended), witness: the body `{ amount: 500 }`, nothing configured. -/
theorem amount_resolution_witness :
    (createPaymentIntent stripeOk envNone reqAmount500).calls =
      [.paymentIntentsCreate (.obj [
        ("amount", .num 500),
        ("currency", .str "brl"),
        ("automatic_payment_methods", .obj [("enabled", .bool true)])])] :=
  (amount_resolution stripeOk envNone reqAmount500 rfl rfl).1

/-! ## The subscription path -/

/-- Customer resolution, in one piece: the retrieval when a `customerId` was
given, then the creation when line 42 asks for it. -/
theorem resolveCustomer_run (stripe : Stripe) (customerId email metadata : JsVal) :
    resolveCustomer stripe customerId email metadata =
      Eff.after (if customerId.truthy then [.customersRetrieve customerId] else []) []
        (if needsNewCustomer (retrievedCustomer stripe customerId) then
          Eff.invoke stripe (.customersCreate (.obj [("email", email), ("metadata", metadata)]))
        else Eff.pure (retrievedCustomer stripe customerId)) := by
  unfold resolveCustomer retrievedCustomer needsNewCustomer
  cases hcid : customerId.truthy
  · simp [Eff.bind_eq, Eff.pure, JsVal.truthy]
  · cases hret : stripe.customers.retrieve customerId with
    | error e =>
      simp [Eff.bind_eq, Eff.pure, Eff.invoke, Stripe.run, hret, JsVal.truthy]
    | ok customer =>
      cases hc : customer.truthy
      · simp [Eff.bind_eq, Eff.pure, Eff.invoke, Stripe.run, hret, hc]
      · cases hd : (customer.prop "deleted").truthy <;>
          simp [Eff.bind_eq, Eff.pure, Eff.invoke, Eff.lift, Stripe.run, hret, hc, hd,
            JsVal.get_of_truthy customer _ hc]

/-- Subscription creation for a customer object, in one piece. -/
theorem createSubscription_run (stripe : Stripe) (customer chosenPriceId metadata : JsVal)
    (hcustomer : customer.nullish = false) :
    createSubscription stripe customer chosenPriceId metadata =
      match stripe.subscriptions.create
          (subscriptionParams (customer.prop "id") chosenPriceId metadata) with
      | .ok subscription =>
        (match subscription.get "latest_invoice" with
        | .ok _ =>
          ⟨[.subscriptionsCreate (subscriptionParams (customer.prop "id") chosenPriceId metadata)],
            [], .ok (subscriptionResponse subscription customer)⟩
        | .error e =>
          ⟨[.subscriptionsCreate (subscriptionParams (customer.prop "id") chosenPriceId metadata)],
            [], .error e⟩)
      | .error e =>
        ⟨[.subscriptionsCreate (subscriptionParams (customer.prop "id") chosenPriceId metadata)],
          [], .error e⟩ := by
  simp only [createSubscription, JsVal.get_of_not_nullish customer _ hcustomer, Eff.bind_eq,
    Eff.lift, Eff.invoke, Eff.bind_ok, Eff.after_nil, Stripe.run]
  cases stripe.subscriptions.create
      (subscriptionParams (customer.prop "id") chosenPriceId metadata) with
  | error e => rfl
  | ok subscription =>
    cases hs : subscription.nullish
    · simp only [JsVal.get_of_not_nullish subscription _ hs, Eff.bind_ok, Eff.after_mk,
        List.append_nil, subscriptionResponse, subscriptionSecret]
      cases hli : (subscription.prop "latest_invoice").truthy
      · simp [Eff.pure, hli]
      · simp only [if_true, JsVal.get_of_truthy _ _ hli, Eff.bind_ok, Eff.after_mk,
          List.append_nil]
        cases hpi : ((subscription.prop "latest_invoice").prop "payment_intent").truthy
        · simp [Eff.pure, hpi]
        · simp [Eff.pure, hpi, JsVal.get_of_truthy _ _ hpi]
    · cases subscription <;> simp [JsVal.nullish] at hs <;> rfl

/-- Subscription creation for a `customer` that is `null` or `undefined` throws
before any call. -/
theorem createSubscription_nullish (stripe : Stripe) (customer chosenPriceId metadata : JsVal)
    (hcustomer : customer.nullish = true) :
    ∃ e, createSubscription stripe customer chosenPriceId metadata = ⟨[], [], .error e⟩ := by
  cases customer <;> simp [JsVal.nullish] at hcustomer
  · exact ⟨_, rfl⟩
  · exact ⟨_, rfl⟩

/-- With a plan and its price id configured, the `try` block is customer
resolution followed by subscription creation. -/
theorem try_subscription (stripe : Stripe) (env : Env) (req : Request)
    (hplan : (req.field "plan").truthy = true)
    (hprice : (chosenPriceId env (req.field "plan")).truthy = true) :
    createPaymentIntentTry stripe env req =
      Eff.bind
        (resolveCustomer stripe (req.field "customerId") (req.field "email") (req.field "metadata"))
        (fun customer =>
          createSubscription stripe customer (chosenPriceId env (req.field "plan"))
            (req.field "metadata")) := by
  have hor : ((envVal env.STRIPE_MONTHLY_PRICE_ID).or
      (envVal env.STRIPE_ANNUAL_PRICE_ID)).truthy = true := by
    unfold chosenPriceId at hprice
    split at hprice
    · exact JsVal.or_truthy_of_right _ _ hprice
    · exact JsVal.or_truthy_of_left _ _ hprice
  simp only [createPaymentIntentTry, Request.get_or, Eff.bind_eq, Eff.lift, Eff.bind_ok,
    Eff.after_nil, hplan, hor, hprice, Bool.and_self, Bool.not_true, Bool.false_eq_true,
    if_true, if_false]

/-- The `catch` of the handler adds no provider call. -/
theorem createPaymentIntent_calls (stripe : Stripe) (env : Env) (req : Request) :
    (createPaymentIntent stripe env req).calls = (createPaymentIntentTry stripe env req).calls := by
  unfold createPaymentIntent
  obtain ⟨cs, ls, r⟩ := createPaymentIntentTry stripe env req
  cases r <;> simp [Eff.bind_eq, Eff.console, Eff.pure]

/-- The handler always answers: with the response of the `try` block, or with
500 and the message of the error thrown there. -/
theorem createPaymentIntent_result (stripe : Stripe) (env : Env) (req : Request) :
    (createPaymentIntent stripe env req).result =
      match (createPaymentIntentTry stripe env req).result with
      | .ok r => .ok r
      | .error e => .ok (errorResponse e) := by
  unfold createPaymentIntent
  obtain ⟨cs, ls, r⟩ := createPaymentIntentTry stripe env req
  cases r <;> simp [Eff.bind_eq, Eff.console, Eff.pure]

/-- The `try` block when a live customer is reused. -/
theorem try_reuse (stripe : Stripe) (env : Env) (req : Request)
    (hplan : (req.field "plan").truthy = true)
    (hprice : (chosenPriceId env (req.field "plan")).truthy = true)
    (hcid : (req.field "customerId").truthy = true)
    (customer : JsVal)
    (hret : stripe.customers.retrieve (req.field "customerId") = .ok customer)
    (hlive : needsNewCustomer customer = false) :
    createPaymentIntentTry stripe env req =
      Eff.after [.customersRetrieve (req.field "customerId")] []
        (createSubscription stripe customer (chosenPriceId env (req.field "plan"))
          (req.field "metadata")) := by
  have hrc : retrievedCustomer stripe (req.field "customerId") = customer := by
    simp [retrievedCustomer, hcid, hret]
  rw [try_subscription stripe env req hplan hprice, resolveCustomer_run, hrc, hlive]
  simp [hcid, Eff.pure]

/-- The `try` block when a customer is created. -/
theorem try_create (stripe : Stripe) (env : Env) (req : Request)
    (hplan : (req.field "plan").truthy = true)
    (hprice : (chosenPriceId env (req.field "plan")).truthy = true)
    (hnew : needsNewCustomer (retrievedCustomer stripe (req.field "customerId")) = true) :
    createPaymentIntentTry stripe env req =
      Eff.after
        (if (req.field "customerId").truthy then [.customersRetrieve (req.field "customerId")]
          else []) []
        (Eff.bind
          (Eff.invoke stripe (.customersCreate
            (.obj [("email", req.field "email"), ("metadata", req.field "metadata")])))
          (fun customer =>
            createSubscription stripe customer (chosenPriceId env (req.field "plan"))
              (req.field "metadata"))) := by
  rw [try_subscription stripe env req hplan hprice, resolveCustomer_run, hnew]
  simp only [if_true]
  generalize Eff.invoke stripe _ = m
  obtain ⟨cs, ls, r⟩ := m
  cases r <;> simp [Eff.after, Eff.bind]

/-! ## Claims on the subscription path -/

/-- The run that reuses a live customer, with the argument of
`subscriptions.create` and the chosen price id under their names. -/
theorem reuse_run (stripe : Stripe) (env : Env) (req : Request)
    (fields : List (String × JsVal))
    (hplan : (req.field "plan").truthy = true)
    (hprice : (chosenPriceId env (req.field "plan")).truthy = true)
    (hcid : (req.field "customerId").truthy = true)
    (hret : stripe.customers.retrieve (req.field "customerId") = .ok (.obj fields))
    (hlive : (JsVal.lookup fields "deleted").truthy = false)
    (hid : JsVal.lookup fields "id" = req.field "customerId") :
    (createPaymentIntent stripe env req).calls =
      [.customersRetrieve (req.field "customerId"),
        .subscriptionsCreate (subscriptionParams (req.field "customerId")
          (chosenPriceId env (req.field "plan")) (req.field "metadata"))] ∧
    (∀ c ∈ (createPaymentIntent stripe env req).calls, c.isCustomersCreate = false) ∧
    (∀ sub, stripe.subscriptions.create (subscriptionParams (req.field "customerId")
        (chosenPriceId env (req.field "plan")) (req.field "metadata")) = .ok (.obj sub) →
      (createPaymentIntent stripe env req).result = .ok ⟨200, .json (.obj [
        ("clientSecret", subscriptionSecret (.obj sub)),
        ("subscriptionId", JsVal.lookup sub "id"),
        ("customerId", req.field "customerId")])⟩) ∧
    (∃ r, (createPaymentIntent stripe env req).result = .ok r ∧
      (r.status = 500 ∨ ∃ secret id, r = ⟨200, .json (.obj [
        ("clientSecret", secret),
        ("subscriptionId", id),
        ("customerId", req.field "customerId")])⟩)) := by
  have hneeds : needsNewCustomer (.obj fields) = false := by
    have ht : (JsVal.obj fields).truthy = true := rfl
    have hp : (JsVal.obj fields).prop "deleted" = JsVal.lookup fields "deleted" := rfl
    simp [needsNewCustomer, ht, hp, hlive]
  have hprop : (JsVal.obj fields).prop "id" = req.field "customerId" := hid
  have htry := try_reuse stripe env req hplan hprice hcid (.obj fields) hret hneeds
  rw [createSubscription_run stripe (.obj fields) _ _ rfl, hprop] at htry
  have hcalls := createPaymentIntent_calls stripe env req
  have hresult := createPaymentIntent_result stripe env req
  rw [htry] at hcalls hresult
  cases hsub : stripe.subscriptions.create (subscriptionParams (req.field "customerId")
      (chosenPriceId env (req.field "plan")) (req.field "metadata")) with
  | error e =>
    rw [hsub] at hcalls hresult
    refine ⟨hcalls, ?_, ?_, ?_⟩
    · intro c hc
      rw [hcalls] at hc
      simp at hc
      rcases hc with rfl | rfl <;> rfl
    · intro sub h
      cases h
    · exact ⟨_, hresult, Or.inl rfl⟩
  | ok subscription =>
    rw [hsub] at hcalls hresult
    dsimp only at hcalls hresult
    cases hget : subscription.get "latest_invoice" with
    | error e =>
      rw [hget] at hcalls hresult
      refine ⟨hcalls, ?_, ?_, ?_⟩
      · intro c hc
        rw [hcalls] at hc
        simp at hc
        rcases hc with rfl | rfl <;> rfl
      · intro sub h
        cases h
        cases hget
      · exact ⟨_, hresult, Or.inl rfl⟩
    | ok latestInvoice =>
      rw [hget] at hcalls hresult
      refine ⟨hcalls, ?_, ?_, ?_⟩
      · intro c hc
        rw [hcalls] at hc
        simp at hc
        rcases hc with rfl | rfl <;> rfl
      · intro sub h
        cases h
        rw [hresult]
        simp [subscriptionResponse, JsVal.prop, hid]
      · refine ⟨_, hresult, Or.inr ⟨subscriptionSecret subscription, subscription.prop "id", ?_⟩⟩
        simp only [subscriptionResponse, hprop]

/-- C5: on the subscription path (a plan, and the price id chosen for it
configured), when the request supplies a `customerId` for which
`customers.retrieve` returns a customer object that is not marked deleted and
carries that id, the provider calls are exactly `customers.retrieve` and then
`subscriptions.create` with `customer` that id and `items` the chosen price id,
so `customers.create` is not called; every response is either the 500 of a
failed subscription call or a 200 whose `customerId` is the one supplied; and
it is the latter whenever `subscriptions.create` returns a subscription
object. -/
theorem reuse_existing_customer (stripe : Stripe) (env : Env) (req : Request)
    (fields : List (String × JsVal))
    (hplan : (req.field "plan").truthy = true)
    (hprice : (if (req.field "plan").strictEqStr "annual" then
        envVal env.STRIPE_ANNUAL_PRICE_ID
      else envVal env.STRIPE_MONTHLY_PRICE_ID).truthy = true)
    (hcid : (req.field "customerId").truthy = true)
    (hret : stripe.customers.retrieve (req.field "customerId") = .ok (.obj fields))
    (hlive : (JsVal.lookup fields "deleted").truthy = false)
    (hid : JsVal.lookup fields "id" = req.field "customerId") :
    (createPaymentIntent stripe env req).calls =
      [.customersRetrieve (req.field "customerId"),
        .subscriptionsCreate (.obj [
          ("customer", req.field "customerId"),
          ("items", .arr [.obj [("price",
            if (req.field "plan").strictEqStr "annual" then
              envVal env.STRIPE_ANNUAL_PRICE_ID
            else envVal env.STRIPE_MONTHLY_PRICE_ID)]]),
          ("payment_behavior", .str "default_incomplete"),
          ("expand", .arr [.str "latest_invoice.payment_intent"]),
          ("metadata", (req.field "metadata").or (.obj []))])] ∧
    (∀ c ∈ (createPaymentIntent stripe env req).calls, c.isCustomersCreate = false) ∧
    (∀ sub, stripe.subscriptions.create (.obj [
          ("customer", req.field "customerId"),
          ("items", .arr [.obj [("price",
            if (req.field "plan").strictEqStr "annual" then
              envVal env.STRIPE_ANNUAL_PRICE_ID
            else envVal env.STRIPE_MONTHLY_PRICE_ID)]]),
          ("payment_behavior", .str "default_incomplete"),
          ("expand", .arr [.str "latest_invoice.payment_intent"]),
          ("metadata", (req.field "metadata").or (.obj []))]) = .ok (.obj sub) →
      (createPaymentIntent stripe env req).result = .ok ⟨200, .json (.obj [
        ("clientSecret", subscriptionSecret (.obj sub)),
        ("subscriptionId", JsVal.lookup sub "id"),
        ("customerId", req.field "customerId")])⟩) ∧
    (∃ r, (createPaymentIntent stripe env req).result = .ok r ∧
      (r.status = 500 ∨ ∃ secret id, r = ⟨200, .json (.obj [
        ("clientSecret", secret),
        ("subscriptionId", id),
        ("customerId", req.field "customerId")])⟩)) :=
  reuse_run stripe env req fields hplan hprice hcid hret hlive hid

/-- C5, witness: plan `monthly`, the monthly price configured, and the known
customer `cus_1`. -/
theorem reuse_existing_customer_witness :
    (createPaymentIntent stripeOk envMonthlyOnly reqMonthlyCustomer).calls =
      [.customersRetrieve (.str "cus_1"),
        .subscriptionsCreate (.obj [
          ("customer", .str "cus_1"),
          ("items", .arr [.obj [("price", .str "price_monthly")]]),
          ("payment_behavior", .str "default_incomplete"),
          ("expand", .arr [.str "latest_invoice.payment_intent"]),
          ("metadata", .obj [])])] ∧
    (createPaymentIntent stripeOk envMonthlyOnly reqMonthlyCustomer).result =
      .ok ⟨200, .json (.obj [
        ("clientSecret", .str "pi_secret"),
        ("subscriptionId", .str "sub_1"),
        ("customerId", .str "cus_1")])⟩ :=
  ⟨(reuse_existing_customer stripeOk envMonthlyOnly reqMonthlyCustomer
      [("id", .str "cus_1")] rfl rfl rfl rfl rfl rfl).1,
    (reuse_existing_customer stripeOk envMonthlyOnly reqMonthlyCustomer
      [("id", .str "cus_1")] rfl rfl rfl rfl rfl rfl).2.2.1 _ rfl⟩

/-- Subscription creation never calls `customers.create`. -/
theorem createSubscription_no_customer_call (stripe : Stripe)
    (customer chosenPriceId metadata : JsVal) :
    (createSubscription stripe customer chosenPriceId metadata).calls.filter
      Call.isCustomersCreate = [] := by
  cases hc : customer.nullish
  · rw [createSubscription_run stripe customer chosenPriceId metadata hc]
    cases stripe.subscriptions.create
        (subscriptionParams (customer.prop "id") chosenPriceId metadata) with
    | error e => rfl
    | ok subscription =>
      dsimp only
      cases subscription.get "latest_invoice" <;> rfl
  · obtain ⟨e, he⟩ := createSubscription_nullish stripe customer chosenPriceId metadata hc
    rw [he]
    rfl

/-- A new customer is asked for by line 42 when no `customerId` was given, the
retrieval failed, or the value retrieved is falsy or marked deleted. -/
theorem needsNewCustomer_of_case (stripe : Stripe) (customerId : JsVal)
    (h : customerId.truthy = false ∨
      (∃ e, stripe.customers.retrieve customerId = .error e) ∨
      (∃ c, stripe.customers.retrieve customerId = .ok c ∧
        (c.truthy = false ∨ (c.prop "deleted").truthy = true))) :
    needsNewCustomer (retrievedCustomer stripe customerId) = true := by
  unfold retrievedCustomer
  cases hcid : customerId.truthy
  · rfl
  · rcases h with h | ⟨e, he⟩ | ⟨c, hc, hd⟩
    · rw [hcid] at h
      cases h
    · simp [he, needsNewCustomer, JsVal.truthy]
    · rcases hd with hd | hd
      · simp [hc, needsNewCustomer, hd]
      · simp [hc, needsNewCustomer, hd]

/-- In every other case the retrieved customer is kept. -/
theorem needsNewCustomer_of_live (stripe : Stripe) (customerId : JsVal)
    (h : ¬ (customerId.truthy = false ∨
      (∃ e, stripe.customers.retrieve customerId = .error e) ∨
      (∃ c, stripe.customers.retrieve customerId = .ok c ∧
        (c.truthy = false ∨ (c.prop "deleted").truthy = true)))) :
    customerId.truthy = true ∧
    ∃ c, stripe.customers.retrieve customerId = .ok c ∧ needsNewCustomer c = false := by
  cases hcid : customerId.truthy
  · exact absurd (Or.inl hcid) h
  · refine ⟨rfl, ?_⟩
    cases hret : stripe.customers.retrieve customerId with
    | error e => exact absurd (Or.inr (Or.inl ⟨e, hret⟩)) h
    | ok c =>
      refine ⟨c, rfl, ?_⟩
      cases ht : c.truthy
      · exact absurd (Or.inr (Or.inr ⟨c, hret, Or.inl ht⟩)) h
      · cases hd : (c.prop "deleted").truthy
        · simp [needsNewCustomer, ht, hd]
        · exact absurd (Or.inr (Or.inr ⟨c, hret, Or.inr hd⟩)) h

/-- The calls to `customers.create` of a run on the subscription path, and the
run in which a customer is created, with the argument of `subscriptions.create`
and the chosen price id under their names. -/
theorem create_run (stripe : Stripe) (env : Env) (req : Request)
    (hplan : (req.field "plan").truthy = true)
    (hprice : (chosenPriceId env (req.field "plan")).truthy = true) :
    ((req.field "customerId").truthy = false ∨
        (∃ e, stripe.customers.retrieve (req.field "customerId") = .error e) ∨
        (∃ c, stripe.customers.retrieve (req.field "customerId") = .ok c ∧
          (c.truthy = false ∨ (c.prop "deleted").truthy = true)) →
      (createPaymentIntent stripe env req).calls.filter Call.isCustomersCreate =
        [.customersCreate (.obj [("email", req.field "email"),
          ("metadata", req.field "metadata")])]) ∧
    (¬ ((req.field "customerId").truthy = false ∨
        (∃ e, stripe.customers.retrieve (req.field "customerId") = .error e) ∨
        (∃ c, stripe.customers.retrieve (req.field "customerId") = .ok c ∧
          (c.truthy = false ∨ (c.prop "deleted").truthy = true))) →
      (createPaymentIntent stripe env req).calls.filter Call.isCustomersCreate = []) ∧
    ((req.field "customerId").truthy = false ∨
        (∃ e, stripe.customers.retrieve (req.field "customerId") = .error e) ∨
        (∃ c, stripe.customers.retrieve (req.field "customerId") = .ok c ∧
          (c.truthy = false ∨ (c.prop "deleted").truthy = true)) →
      ∀ customer sub,
        stripe.customers.create (.obj [("email", req.field "email"),
          ("metadata", req.field "metadata")]) = .ok (.obj customer) →
        stripe.subscriptions.create (subscriptionParams (JsVal.lookup customer "id")
          (chosenPriceId env (req.field "plan")) (req.field "metadata")) = .ok (.obj sub) →
        (createPaymentIntent stripe env req).calls =
          (if (req.field "customerId").truthy then
            [.customersRetrieve (req.field "customerId")] else []) ++
          [.customersCreate (.obj [("email", req.field "email"),
              ("metadata", req.field "metadata")]),
            .subscriptionsCreate (subscriptionParams (JsVal.lookup customer "id")
              (chosenPriceId env (req.field "plan")) (req.field "metadata"))] ∧
        (createPaymentIntent stripe env req).result = .ok ⟨200, .json (.obj [
          ("clientSecret", subscriptionSecret (.obj sub)),
          ("subscriptionId", JsVal.lookup sub "id"),
          ("customerId", JsVal.lookup customer "id")])⟩) := by
  refine ⟨?_, ?_, ?_⟩
  · intro hcase
    have htry := try_create stripe env req hplan hprice
      (needsNewCustomer_of_case stripe _ hcase)
    rw [createPaymentIntent_calls, htry]
    simp only [Eff.invoke]
    cases stripe.run (.customersCreate (.obj [("email", req.field "email"),
        ("metadata", req.field "metadata")])) with
    | error e =>
      cases (req.field "customerId").truthy <;> rfl
    | ok customer =>
      have h := createSubscription_no_customer_call stripe customer
        (chosenPriceId env (req.field "plan")) (req.field "metadata")
      cases (req.field "customerId").truthy <;>
        simp [Eff.after, Call.isCustomersCreate, List.filter_cons, h]
  · intro hcase
    obtain ⟨hcid, c, hret, hlive⟩ := needsNewCustomer_of_live stripe _ hcase
    have htry := try_reuse stripe env req hplan hprice hcid c hret hlive
    rw [createPaymentIntent_calls, htry]
    have h := createSubscription_no_customer_call stripe c
      (chosenPriceId env (req.field "plan")) (req.field "metadata")
    simp [Eff.after, Call.isCustomersCreate, List.filter_cons, h]
  · intro hcase customer sub hcreate hsub
    have htry := try_create stripe env req hplan hprice
      (needsNewCustomer_of_case stripe _ hcase)
    have hrun : createSubscription stripe (.obj customer) (chosenPriceId env (req.field "plan"))
        (req.field "metadata") =
        ⟨[.subscriptionsCreate (subscriptionParams (JsVal.lookup customer "id")
            (chosenPriceId env (req.field "plan")) (req.field "metadata"))], [],
          .ok (subscriptionResponse (.obj sub) (.obj customer))⟩ := by
      rw [createSubscription_run stripe (.obj customer) _ _ rfl]
      have hp : (JsVal.obj customer).prop "id" = JsVal.lookup customer "id" := rfl
      rw [hp, hsub]
      rfl
    simp only [Eff.invoke, Stripe.run, hcreate, Eff.bind_ok, hrun, Eff.after_mk] at htry
    rw [createPaymentIntent_calls, createPaymentIntent_result, htry]
    exact ⟨rfl, rfl⟩

/-- C6, as stated, fails: a `customerId` is supplied, `customers.retrieve` does
not fail but resolves with `null`, which is not a customer marked deleted, and
`customers.create` is called all the same. -/
theorem retrieve_null_counterexample :
    (reqMonthlyCustomer.field "customerId").truthy = true ∧
    stripeRetrieveNull.customers.retrieve (reqMonthlyCustomer.field "customerId") =
      .ok .null ∧
    (JsVal.null.prop "deleted").truthy = false ∧
    (createPaymentIntent stripeRetrieveNull envMonthlyOnly reqMonthlyCustomer).calls =
      [.customersRetrieve (.str "cus_1"),
        .customersCreate (.obj [("email", .undefined), ("metadata", .undefined)]),
        .subscriptionsCreate (.obj [
          ("customer", .str "cus_new"),
          ("items", .arr [.obj [("price", .str "price_monthly")]]),
          ("payment_behavior", .str "default_incomplete"),
          ("expand", .arr [.str "latest_invoice.payment_intent"]),
          ("metadata", .obj [])])] ∧
    (createPaymentIntent stripeRetrieveNull envMonthlyOnly reqMonthlyCustomer).calls.filter
        Call.isCustomersCreate =
      [.customersCreate (.obj [("email", .undefined), ("metadata", .undefined)])] :=
  ⟨rfl, rfl, rfl, rfl, rfl⟩

/-- C6 (amended): on the subscription path (a plan, and the price id chosen for
it configured), `customers.create` is called, exactly once and with the email
and metadata of the request, if and only if no (truthy) `customerId` was
supplied, or `customers.retrieve` failed, or the value it resolved with is falsy
(`null`) or marked deleted; otherwise it is not called at all; and in each of
those cases, when `customers.create` and `subscriptions.create` return objects,
`subscriptions.create` is called with `customer` the id of the new customer and
`items` the chosen price id, and the response is 200 with the id of the new
customer as `customerId` and the id of the subscription as `subscriptionId`. -/
theorem create_customer_when_absent (stripe : Stripe) (env : Env) (req : Request)
    (hplan : (req.field "plan").truthy = true)
    (hprice : (if (req.field "plan").strictEqStr "annual" then
        envVal env.STRIPE_ANNUAL_PRICE_ID
      else envVal env.STRIPE_MONTHLY_PRICE_ID).truthy = true) :
    ((createPaymentIntent stripe env req).calls.filter Call.isCustomersCreate =
        [.customersCreate (.obj [("email", req.field "email"),
          ("metadata", req.field "metadata")])] ↔
      ((req.field "customerId").truthy = false ∨
        (∃ e, stripe.customers.retrieve (req.field "customerId") = .error e) ∨
        (∃ c, stripe.customers.retrieve (req.field "customerId") = .ok c ∧
          (c.truthy = false ∨ (c.prop "deleted").truthy = true)))) ∧
    (¬ ((req.field "customerId").truthy = false ∨
        (∃ e, stripe.customers.retrieve (req.field "customerId") = .error e) ∨
        (∃ c, stripe.customers.retrieve (req.field "customerId") = .ok c ∧
          (c.truthy = false ∨ (c.prop "deleted").truthy = true))) →
      (createPaymentIntent stripe env req).calls.filter Call.isCustomersCreate = []) ∧
    ((req.field "customerId").truthy = false ∨
        (∃ e, stripe.customers.retrieve (req.field "customerId") = .error e) ∨
        (∃ c, stripe.customers.retrieve (req.field "customerId") = .ok c ∧
          (c.truthy = false ∨ (c.prop "deleted").truthy = true)) →
      ∀ customer sub,
        stripe.customers.create (.obj [("email", req.field "email"),
          ("metadata", req.field "metadata")]) = .ok (.obj customer) →
        stripe.subscriptions.create (.obj [
          ("customer", JsVal.lookup customer "id"),
          ("items", .arr [.obj [("price",
            if (req.field "plan").strictEqStr "annual" then
              envVal env.STRIPE_ANNUAL_PRICE_ID
            else envVal env.STRIPE_MONTHLY_PRICE_ID)]]),
          ("payment_behavior", .str "default_incomplete"),
          ("expand", .arr [.str "latest_invoice.payment_intent"]),
          ("metadata", (req.field "metadata").or (.obj []))]) = .ok (.obj sub) →
        (createPaymentIntent stripe env req).calls =
          (if (req.field "customerId").truthy then
            [.customersRetrieve (req.field "customerId")] else []) ++
          [.customersCreate (.obj [("email", req.field "email"),
              ("metadata", req.field "metadata")]),
            .subscriptionsCreate (.obj [
              ("customer", JsVal.lookup customer "id"),
              ("items", .arr [.obj [("price",
                if (req.field "plan").strictEqStr "annual" then
                  envVal env.STRIPE_ANNUAL_PRICE_ID
                else envVal env.STRIPE_MONTHLY_PRICE_ID)]]),
              ("payment_behavior", .str "default_incomplete"),
              ("expand", .arr [.str "latest_invoice.payment_intent"]),
              ("metadata", (req.field "metadata").or (.obj []))])] ∧
        (createPaymentIntent stripe env req).result = .ok ⟨200, .json (.obj [
          ("clientSecret", subscriptionSecret (.obj sub)),
          ("subscriptionId", JsVal.lookup sub "id"),
          ("customerId", JsVal.lookup customer "id")])⟩) := by
  obtain ⟨hcalled, hnot, hsuccess⟩ := create_run stripe env req hplan hprice
  refine ⟨⟨?_, hcalled⟩, hnot, hsuccess⟩
  intro hfilter
  by_contra hcase
  rw [hnot hcase] at hfilter
  cases hfilter

/-- C6 (amended), witness: plan `monthly`, the monthly price configured, no
`customerId`. -/
theorem create_customer_when_absent_witness :
    (createPaymentIntent stripeOk envMonthlyOnly reqMonthly).calls =
      [.customersCreate (.obj [("email", .undefined), ("metadata", .undefined)]),
        .subscriptionsCreate (.obj [
          ("customer", .str "cus_new"),
          ("items", .arr [.obj [("price", .str "price_monthly")]]),
          ("payment_behavior", .str "default_incomplete"),
          ("expand", .arr [.str "latest_invoice.payment_intent"]),
          ("metadata", .obj [])])] ∧
    (createPaymentIntent stripeOk envMonthlyOnly reqMonthly).result = .ok ⟨200, .json (.obj [
      ("clientSecret", .str "pi_secret"),
      ("subscriptionId", .str "sub_1"),
      ("customerId", .str "cus_new")])⟩ :=
  (create_customer_when_absent stripeOk envMonthlyOnly reqMonthly rfl rfl).2.2
    (Or.inl rfl) [("id", .str "cus_new")]
    [("id", .str "sub_1"),
      ("latest_invoice", .obj [("payment_intent", .obj [("client_secret", .str "pi_secret")])])]
    rfl rfl

/-- A subscription object returned to a call that subscription creation made is
answered with the response of line 58. -/
theorem createSubscription_of_mem (stripe : Stripe) (customer chosenPriceId metadata : JsVal)
    (p : JsVal) (sub : List (String × JsVal))
    (hmem : Call.subscriptionsCreate p ∈
      (createSubscription stripe customer chosenPriceId metadata).calls)
    (hsub : stripe.subscriptions.create p = .ok (.obj sub)) :
    (createSubscription stripe customer chosenPriceId metadata).result =
      .ok (subscriptionResponse (.obj sub) customer) := by
  cases hc : customer.nullish
  · rw [createSubscription_run stripe customer chosenPriceId metadata hc] at hmem ⊢
    have hp : p = subscriptionParams (customer.prop "id") chosenPriceId metadata := by
      cases hcreate : stripe.subscriptions.create
          (subscriptionParams (customer.prop "id") chosenPriceId metadata) with
      | error e =>
        rw [hcreate] at hmem
        simpa using hmem
      | ok subscription =>
        rw [hcreate] at hmem
        dsimp only at hmem
        cases hget : subscription.get "latest_invoice" <;> rw [hget] at hmem <;>
          simpa using hmem
    rw [← hp, hsub]
    rfl
  · obtain ⟨e, he⟩ := createSubscription_nullish stripe customer chosenPriceId metadata hc
    rw [he] at hmem
    simp at hmem

/-- The secret extracted from a subscription, case by case. -/
theorem subscriptionSecret_cases (sub : List (String × JsVal)) :
    ((JsVal.lookup sub "latest_invoice").truthy = true →
      ((JsVal.lookup sub "latest_invoice").prop "payment_intent").truthy = true →
      subscriptionSecret (.obj sub) =
        ((JsVal.lookup sub "latest_invoice").prop "payment_intent").prop "client_secret") ∧
    ((JsVal.lookup sub "latest_invoice").truthy = false →
      subscriptionSecret (.obj sub) = .null) ∧
    ((JsVal.lookup sub "latest_invoice").truthy = true →
      ((JsVal.lookup sub "latest_invoice").prop "payment_intent").truthy = false →
      subscriptionSecret (.obj sub) = .null) := by
  have hp : (JsVal.obj sub).prop "latest_invoice" = JsVal.lookup sub "latest_invoice" := rfl
  refine ⟨?_, ?_, ?_⟩
  · intro hli hpi
    simp [subscriptionSecret, hp, hli, hpi]
  · intro hli
    simp [subscriptionSecret, hp, hli]
  · intro hli hpi
    simp [subscriptionSecret, hp, hli, hpi]

/-- C10: on the subscription path, for every subscription object returned to the
`subscriptions.create` call the handler made, the response is a 200 that carries
`subscriptionId` and `customerId`, and its `clientSecret` is
`subscription.latest_invoice.payment_intent.client_secret` when `latest_invoice`
and its `payment_intent` are both present, and `null` when `latest_invoice` is
absent or its `payment_intent` is absent. -/
theorem client_secret_extraction (stripe : Stripe) (env : Env) (req : Request)
    (p : JsVal) (sub : List (String × JsVal))
    (hplan : (req.field "plan").truthy = true)
    (hprice : (chosenPriceId env (req.field "plan")).truthy = true)
    (hmem : Call.subscriptionsCreate p ∈ (createPaymentIntent stripe env req).calls)
    (hsub : stripe.subscriptions.create p = .ok (.obj sub)) :
    (∃ secret customerId, (createPaymentIntent stripe env req).result = .ok ⟨200, .json (.obj [
        ("clientSecret", secret),
        ("subscriptionId", JsVal.lookup sub "id"),
        ("customerId", customerId)])⟩ ∧
      ((JsVal.lookup sub "latest_invoice").truthy = true →
        ((JsVal.lookup sub "latest_invoice").prop "payment_intent").truthy = true →
        secret =
          ((JsVal.lookup sub "latest_invoice").prop "payment_intent").prop "client_secret") ∧
      ((JsVal.lookup sub "latest_invoice").truthy = false → secret = .null) ∧
      ((JsVal.lookup sub "latest_invoice").truthy = true →
        ((JsVal.lookup sub "latest_invoice").prop "payment_intent").truthy = false →
        secret = .null)) := by
  have hkey : ∃ customer, (createPaymentIntentTry stripe env req).result =
      .ok (subscriptionResponse (.obj sub) customer) := by
    rw [createPaymentIntent_calls] at hmem
    cases hnew : needsNewCustomer (retrievedCustomer stripe (req.field "customerId"))
    · have hrc : createPaymentIntentTry stripe env req =
          Eff.after
            (if (req.field "customerId").truthy then
              [.customersRetrieve (req.field "customerId")] else []) []
            (createSubscription stripe (retrievedCustomer stripe (req.field "customerId"))
              (chosenPriceId env (req.field "plan")) (req.field "metadata")) := by
        rw [try_subscription stripe env req hplan hprice, resolveCustomer_run, hnew]
        simp [Eff.pure, Eff.after]
      rw [hrc] at hmem ⊢
      refine ⟨retrievedCustomer stripe (req.field "customerId"), ?_⟩
      refine createSubscription_of_mem stripe _ _ _ p sub ?_ hsub
      cases (req.field "customerId").truthy <;> simpa [Eff.after] using hmem
    · rw [try_create stripe env req hplan hprice hnew] at hmem ⊢
      simp only [Eff.invoke] at hmem ⊢
      cases hcreate : stripe.run (.customersCreate (.obj [("email", req.field "email"),
          ("metadata", req.field "metadata")])) with
      | error e =>
        exfalso
        rw [hcreate] at hmem
        cases (req.field "customerId").truthy <;> simp [Eff.after] at hmem
      | ok customer =>
        refine ⟨customer, ?_⟩
        rw [hcreate] at hmem
        simp only [Eff.bind_ok, Eff.after] at hmem ⊢
        refine createSubscription_of_mem stripe _ _ _ p sub ?_ hsub
        cases (req.field "customerId").truthy <;> simpa using hmem
  obtain ⟨customer, hres⟩ := hkey
  refine ⟨subscriptionSecret (.obj sub), customer.prop "id", ?_, subscriptionSecret_cases sub⟩
  rw [createPaymentIntent_result, hres]
  rfl

/-- C10, witness: the subscription the provider `stripeOk` returns. -/
theorem client_secret_extraction_witness :
    ∃ secret customerId,
      (createPaymentIntent stripeOk envMonthlyOnly reqMonthly).result = .ok ⟨200, .json (.obj [
        ("clientSecret", secret),
        ("subscriptionId", .str "sub_1"),
        ("customerId", customerId)])⟩ ∧
      secret = .str "pi_secret" := by
  obtain ⟨secret, customerId, hres, hboth, _, _⟩ :=
    client_secret_extraction stripeOk envMonthlyOnly reqMonthly
      (subscriptionParams (.str "cus_new") (.str "price_monthly") .undefined)
      [("id", .str "sub_1"),
        ("latest_invoice", .obj [("payment_intent", .obj [("client_secret", .str "pi_secret")])])]
      rfl rfl (List.Mem.tail _ (List.Mem.head _)) rfl
  exact ⟨secret, customerId, hres, hboth rfl rfl⟩

/-! ## Provider errors -/

theorem failFast_nil (stripe : Stripe) {α : Type} (ls : List LogLine) (r : Except JsError α) :
    FailFast stripe (⟨[], ls, r⟩ : Eff α) := by
  intro c e hc
  cases hc

theorem failFast_single (stripe : Stripe) {α : Type} (c : Call) (ls : List LogLine)
    (r : Except JsError α) (h : ∀ e, stripe.run c = .error e → r = .error e) :
    FailFast stripe (⟨[c], ls, r⟩ : Eff α) := by
  intro c1 e hc _ hrun
  have hc1 : c1 = c := by simpa using hc
  subst hc1
  exact ⟨h e hrun, [], rfl⟩

theorem failFast_invoke (stripe : Stripe) (c : Call) : FailFast stripe (Eff.invoke stripe c) :=
  failFast_single stripe c [] (stripe.run c) (fun _ h => h)

theorem failFast_after (stripe : Stripe) {α : Type} (pre : List Call) (ls : List LogLine)
    (m : Eff α) (hpre : ∀ c ∈ pre, c.isRetrieve = true) (hm : FailFast stripe m) :
    FailFast stripe (Eff.after pre ls m) := by
  intro c e hc hnot hrun
  have hc1 : c ∈ pre ∨ c ∈ m.calls := by simpa [Eff.after] using hc
  rcases hc1 with h | h
  · rw [hpre c h] at hnot
    cases hnot
  · obtain ⟨hres, rest, hrest⟩ := hm c e h hnot hrun
    refine ⟨hres, pre ++ rest, ?_⟩
    simp [Eff.after, hrest]

theorem failFast_bind (stripe : Stripe) {α β : Type} (m : Eff α) (f : α → Eff β)
    (hm : FailFast stripe m) (hf : ∀ a, FailFast stripe (f a)) :
    FailFast stripe (Eff.bind m f) := by
  obtain ⟨cs, ls, r⟩ := m
  cases r with
  | error e1 =>
    intro c e hc hnot hrun
    obtain ⟨hres, pre, hpre⟩ := hm c e hc hnot hrun
    cases hres
    exact ⟨rfl, pre, hpre⟩
  | ok a =>
    intro c e hc hnot hrun
    have hc1 : c ∈ cs ∨ c ∈ (f a).calls := by simpa [Eff.after] using hc
    rcases hc1 with h | h
    · have := (hm c e h hnot hrun).1
      cases this
    · obtain ⟨hres, rest, hrest⟩ := hf a c e h hnot hrun
      refine ⟨hres, cs ++ rest, ?_⟩
      simp [Eff.after, hrest]

theorem failFast_resolveCustomer (stripe : Stripe) (customerId email metadata : JsVal) :
    FailFast stripe (resolveCustomer stripe customerId email metadata) := by
  rw [resolveCustomer_run]
  apply failFast_after
  · intro c hc
    cases hcid : customerId.truthy
    · rw [hcid] at hc
      simp at hc
    · rw [hcid] at hc
      have : c = .customersRetrieve customerId := by simpa using hc
      rw [this]
      rfl
  · split
    · exact failFast_invoke stripe _
    · exact failFast_nil stripe _ _

theorem failFast_createSubscription (stripe : Stripe) (customer chosenPriceId metadata : JsVal) :
    FailFast stripe (createSubscription stripe customer chosenPriceId metadata) := by
  cases hc : customer.nullish
  · rw [createSubscription_run stripe customer chosenPriceId metadata hc]
    cases hcreate : stripe.subscriptions.create
        (subscriptionParams (customer.prop "id") chosenPriceId metadata) with
    | error e =>
      refine failFast_single stripe _ _ _ ?_
      intro e1 h1
      have h2 : stripe.subscriptions.create
          (subscriptionParams (customer.prop "id") chosenPriceId metadata) = .error e1 := h1
      rw [hcreate] at h2
      cases h2
      rfl
    | ok subscription =>
      dsimp only
      cases subscription.get "latest_invoice" <;>
      · refine failFast_single stripe _ _ _ ?_
        intro e1 h1
        have h2 : stripe.subscriptions.create
            (subscriptionParams (customer.prop "id") chosenPriceId metadata) = .error e1 := h1
        rw [hcreate] at h2
        cases h2
  · obtain ⟨e, he⟩ := createSubscription_nullish stripe customer chosenPriceId metadata hc
    rw [he]
    exact failFast_nil stripe _ _

theorem failFast_oneOffPayment (stripe : Stripe) (req : Request) (plan : JsVal) :
    FailFast stripe (oneOffPayment stripe req plan) := by
  cases hb : req.body.nullish
  · rw [oneOffPayment_run stripe req plan hb]
    cases hcreate : stripe.paymentIntents.create
        (oneOffParams (intentAmount (req.field "amount") plan)
          (currencyOrDefault (req.field "currency"))) with
    | error e =>
      refine failFast_single stripe _ _ _ ?_
      intro e1 h1
      have h2 : stripe.paymentIntents.create
          (oneOffParams (intentAmount (req.field "amount") plan)
            (currencyOrDefault (req.field "currency"))) = .error e1 := h1
      rw [hcreate] at h2
      cases h2
      rfl
    | ok paymentIntent =>
      dsimp only
      cases paymentIntent.get "client_secret" <;>
      · refine failFast_single stripe _ _ _ ?_
        intro e1 h1
        have h2 : stripe.paymentIntents.create
            (oneOffParams (intentAmount (req.field "amount") plan)
              (currencyOrDefault (req.field "currency"))) = .error e1 := h1
        rw [hcreate] at h2
        cases h2
  · have hthrow : ∃ e, req.body.destructure "amount" "req.body" = .error e := by
      cases hbody : req.body <;> rw [hbody] at hb <;> simp [JsVal.nullish] at hb
      · exact ⟨_, rfl⟩
      · exact ⟨_, rfl⟩
    have hrun : ∃ e, oneOffPayment stripe req plan = ⟨[], [], .error e⟩ := by
      obtain ⟨e, he⟩ := hthrow
      exact ⟨e, by simp [oneOffPayment, he, Eff.bind_eq, Eff.lift]⟩
    obtain ⟨e, he⟩ := hrun
    rw [he]
    exact failFast_nil stripe _ _

theorem failFast_try (stripe : Stripe) (env : Env) (req : Request) :
    FailFast stripe (createPaymentIntentTry stripe env req) := by
  cases hpath : ((req.field "plan").truthy &&
      ((envVal env.STRIPE_MONTHLY_PRICE_ID).or (envVal env.STRIPE_ANNUAL_PRICE_ID)).truthy)
  · rw [try_oneOff stripe env req hpath]
    exact failFast_oneOffPayment stripe req _
  · have hplan : (req.field "plan").truthy = true := (Bool.and_eq_true_iff.1 hpath).1
    cases hprice : (chosenPriceId env (req.field "plan")).truthy
    · have hrun : createPaymentIntentTry stripe env req =
          ⟨[], [], .ok ⟨400, .json (.obj [("error",
            .str "Requested plan not configured on server")])⟩⟩ := by
        simp only [createPaymentIntentTry, Request.get_or, Eff.bind_eq, Eff.lift, Eff.pure,
          Eff.bind_ok, Eff.after_nil, hpath, hprice, Bool.not_false, if_true]
      rw [hrun]
      exact failFast_nil stripe _ _
    · rw [try_subscription stripe env req hplan hprice]
      exact failFast_bind stripe _ _ (failFast_resolveCustomer stripe _ _ _)
        (fun customer => failFast_createSubscription stripe customer _ _)

/-- C7, as stated, fails for `customers.retrieve`: when the retrieval rejects,
the handler does not answer 500; it goes on to `customers.create` and
`subscriptions.create` and answers 200. -/
theorem retrieve_error_counterexample :
    stripeRetrieveFails.run (.customersRetrieve (.str "cus_1")) =
      .error ⟨"No such customer"⟩ ∧
    (createPaymentIntent stripeRetrieveFails envMonthlyOnly reqMonthlyCustomer).calls =
      [.customersRetrieve (.str "cus_1"),
        .customersCreate (.obj [("email", .undefined), ("metadata", .undefined)]),
        .subscriptionsCreate (subscriptionParams (.str "cus_new") (.str "price_monthly")
          .undefined)] ∧
    (createPaymentIntent stripeRetrieveFails envMonthlyOnly reqMonthlyCustomer).result =
      .ok ⟨200, .json (.obj [
        ("clientSecret", .str "pi_secret"),
        ("subscriptionId", .str "sub_1"),
        ("customerId", .str "cus_new")])⟩ ∧
    (createPaymentIntent stripeRetrieveFails envMonthlyOnly reqMonthlyCustomer).result ≠
      .ok ⟨500, .json (.obj [("error", .str "No such customer")])⟩ := by
  refine ⟨rfl, rfl, rfl, ?_⟩
  have h : (createPaymentIntent stripeRetrieveFails envMonthlyOnly reqMonthlyCustomer).result =
      .ok ⟨200, .json (.obj [
        ("clientSecret", .str "pi_secret"),
        ("subscriptionId", .str "sub_1"),
        ("customerId", .str "cus_new")])⟩ := rfl
  rw [h]
  simp

/-- C7 (amended): for every request, every call to `customers.create`,
`subscriptions.create` or `paymentIntents.create` that the handler makes and
that throws or rejects with an error is the last provider call of the run, and
the response is 500 with the body `error: m`, where `m` is the message of that
error. A `customers.retrieve` that throws is caught by the inner `try`: on the
subscription path the handler then goes on to `customers.create`. -/
theorem provider_error_is_500 (stripe : Stripe) (env : Env) (req : Request) :
    (∀ c e, c ∈ (createPaymentIntent stripe env req).calls → c.isRetrieve = false →
      stripe.run c = .error e →
      (createPaymentIntent stripe env req).result =
        .ok ⟨500, .json (.obj [("error", .str e.message)])⟩ ∧
      ∃ pre, (createPaymentIntent stripe env req).calls = pre ++ [c]) ∧
    ((req.field "plan").truthy = true → (chosenPriceId env (req.field "plan")).truthy = true →
      (req.field "customerId").truthy = true →
      ∀ e, stripe.customers.retrieve (req.field "customerId") = .error e →
      ∃ rest, (createPaymentIntent stripe env req).calls =
        .customersRetrieve (req.field "customerId") ::
        .customersCreate (.obj [("email", req.field "email"),
          ("metadata", req.field "metadata")]) :: rest) := by
  refine ⟨?_, ?_⟩
  · intro c e hc hnot hrun
    rw [createPaymentIntent_calls] at hc ⊢
    obtain ⟨hres, pre, hpre⟩ := failFast_try stripe env req c e hc hnot hrun
    rw [createPaymentIntent_result, hres]
    exact ⟨rfl, pre, hpre⟩
  · intro hplan hprice hcid e hret
    have htry := try_create stripe env req hplan hprice
      (needsNewCustomer_of_case stripe _ (Or.inr (Or.inl ⟨e, hret⟩)))
    rw [createPaymentIntent_calls, htry, hcid]
    simp only [Eff.invoke, if_true]
    cases stripe.run (.customersCreate (.obj [("email", req.field "email"),
        ("metadata", req.field "metadata")])) with
    | error e1 => exact ⟨[], rfl⟩
    | ok customer => exact ⟨_, rfl⟩

/-- C7 (amended), witness: `customers.create` rejects. -/
theorem provider_error_is_500_witness :
    (createPaymentIntent stripeCreateFails envMonthlyOnly reqMonthly).result =
      .ok ⟨500, .json (.obj [("error", .str "Invalid email address")])⟩ ∧
    ∃ pre, (createPaymentIntent stripeCreateFails envMonthlyOnly reqMonthly).calls =
      pre ++ [.customersCreate (.obj [("email", .undefined), ("metadata", .undefined)])] :=
  (provider_error_is_500 stripeCreateFails envMonthlyOnly reqMonthly).1
    (.customersCreate (.obj [("email", .undefined), ("metadata", .undefined)]))
    ⟨"Invalid email address"⟩ (List.Mem.head _) rfl rfl

/-! ## The webhook -/

/-- An event that is not `null` or `undefined` and, when its type is one the
`switch` names, carries a `data.object`, is dispatched to one console line. -/
theorem webhookDispatch_ok (event : JsVal) (hevent : event.nullish = false)
    (hdata : handledType (event.prop "type") = true →
      ((event.prop "data").prop "object").nullish = false) :
    ∃ line, webhookDispatch event = ⟨[], [line], .ok ()⟩ := by
  have hdata1 : handledType (event.prop "type") = true → (event.prop "data").nullish = false := by
    intro h
    have h1 := hdata h
    cases hd : event.prop "data" <;> rw [hd] at h1 <;> first | rfl | cases h1
  unfold webhookDispatch
  simp only [JsVal.get_of_not_nullish event _ hevent, Eff.bind_eq, Eff.lift, Eff.bind_ok,
    Eff.after_nil]
  cases h1 : (event.prop "type").strictEqStr "invoice.payment_succeeded"
  · cases h2 : (event.prop "type").strictEqStr "customer.subscription.updated"
    · cases h3 : (event.prop "type").strictEqStr "invoice.payment_failed"
      · exact ⟨.log [.val (.str "Unhandled event type "), .val (event.prop "type")],
          by simp [Eff.console]⟩
      · have hh : handledType (event.prop "type") = true := by simp [handledType, h3]
        refine ⟨.log [.val (.str "Invoice payment failed:"),
          .val (((event.prop "data").prop "object").prop "id")], ?_⟩
        simp only [JsVal.get_of_not_nullish _ _ (hdata1 hh),
          JsVal.get_of_not_nullish _ _ (hdata hh), Eff.bind_ok, Eff.after_nil, Eff.console,
          if_true, Bool.false_eq_true, if_false]
    · have hh : handledType (event.prop "type") = true := by simp [handledType, h2]
      refine ⟨.log [.val (.str "Subscription updated:"),
        .val (((event.prop "data").prop "object").prop "id"),
        .val (((event.prop "data").prop "object").prop "status")], ?_⟩
      simp only [JsVal.get_of_not_nullish _ _ (hdata1 hh),
        JsVal.get_of_not_nullish _ _ (hdata hh), Eff.bind_ok, Eff.after_nil, Eff.console,
        if_true, Bool.false_eq_true, if_false]
  · have hh : handledType (event.prop "type") = true := by simp [handledType, h1]
    refine ⟨.log [.val (.str "Invoice payment succeeded:"),
      .val (((event.prop "data").prop "object").prop "id")], ?_⟩
    simp only [JsVal.get_of_not_nullish _ _ (hdata1 hh),
      JsVal.get_of_not_nullish _ _ (hdata hh), Eff.bind_ok, Eff.after_nil, Eff.console,
      if_true]

/-- Once the verification / parsing step has returned an event that is not
`null` or `undefined` and that, if its type is one of the three handled types,
carries a `data.object`, the handler makes no provider call and answers 200 with
the body `received: true`. -/
theorem webhook_acknowledges (stripe : Stripe) (JSON : Json) (env : Env)
    (req : WebhookRequest) (event : JsVal)
    (hok : webhookEvent stripe JSON env req = .ok event)
    (hevent : event.nullish = false)
    (hdata : handledType (event.prop "type") = true →
      ((event.prop "data").prop "object").nullish = false) :
    (webhook stripe JSON env req).result =
      .ok ⟨200, .json (.obj [("received", .bool true)])⟩ ∧
    (webhook stripe JSON env req).calls = [] := by
  obtain ⟨line, hline⟩ := webhookDispatch_ok event hevent hdata
  have hrun : webhook stripe JSON env req =
      ⟨[], [line], .ok ⟨200, .json (.obj [("received", .bool true)])⟩⟩ := by
    unfold webhook
    rw [hok]
    simp only [Eff.bind_eq, hline, Eff.bind_ok, Eff.pure, Eff.after_mk, List.append_nil]
  rw [hrun]
  exact ⟨rfl, rfl⟩

/-- C8, the code at the failing input: the event `signedEvent` of type
`invoice.payment_succeeded`, posted as `application/json` with the header that
signs its bytes, while a signing secret is configured. The signature is valid
for the raw body, but line 8 has parsed the body before the route runs, so
`constructEvent` is given the parsed object, throws, and the handler answers 400
with `Webhook Error: ...` instead of 200 with `received: true`. -/
theorem signed_event_rejected (JSON : Json) :
    sdkConstructEvent (.raw signedEventText) (.str signedEventHeader) "whsec_test" =
      .ok signedEvent ∧
    reqSignedEvent.header "stripe-signature" = .str signedEventHeader ∧
    envSecret.STRIPE_WEBHOOK_SECRET = some "whsec_test" ∧
    (webhook stripeOk JSON envSecret reqSignedEvent).result =
      .ok ⟨400, .text
        "Webhook Error: No signatures found matching the expected signature for payload"⟩ ∧
    (webhook stripeOk JSON envSecret reqSignedEvent).result ≠
      .ok ⟨200, .json (.obj [("received", .bool true)])⟩ := by
  refine ⟨rfl, rfl, rfl, rfl, ?_⟩
  have h : (webhook stripeOk JSON envSecret reqSignedEvent).result =
      .ok ⟨400, .text
        "Webhook Error: No signatures found matching the expected signature for payload"⟩ :=
    rfl
  rw [h]
  simp

/-- C9: when the verification / parsing step throws an error with message `m`
(`constructEvent` rejecting the signature when a signing secret is configured,
`JSON.parse` rejecting the body when none is), the handler answers 400 with the
text `Webhook Error: ` followed by `m`, makes no provider call, and writes the
single console line of the `catch`: none of the four branches of the `switch`,
each of which writes a `console.log` line, is executed, and `received: true` is
not sent. -/
theorem webhook_rejected (stripe : Stripe) (JSON : Json) (env : Env)
    (req : WebhookRequest) (err : JsError)
    (hfail : webhookEvent stripe JSON env req = .error err) :
    (webhook stripe JSON env req).result =
      .ok ⟨400, .text ("Webhook Error: " ++ err.message)⟩ ∧
    (webhook stripe JSON env req).logs =
      [.error [.val (.str "⚠️  Webhook signature verification failed."),
        .val (.str err.message)]] ∧
    (webhook stripe JSON env req).calls = [] ∧
    (webhook stripe JSON env req).result ≠
      .ok ⟨200, .json (.obj [("received", .bool true)])⟩ := by
  have hrun : webhook stripe JSON env req =
      ⟨[], [.error [.val (.str "⚠️  Webhook signature verification failed."),
        .val (.str err.message)]],
        .ok ⟨400, .text ("Webhook Error: " ++ err.message)⟩⟩ := by
    unfold webhook
    rw [hfail]
    rfl
  rw [hrun]
  refine ⟨rfl, rfl, rfl, ?_⟩
  simp

/-- C9, witness: a signing secret is configured and the header does not sign the
body. -/
theorem webhook_rejected_witness :
    webhookEvent stripeOk jsonNotJson envSecret reqForgedEvent =
      .error ⟨"No signatures found matching the expected signature for payload"⟩ ∧
    (webhook stripeOk jsonNotJson envSecret reqForgedEvent).result =
      .ok ⟨400, .text
        "Webhook Error: No signatures found matching the expected signature for payload"⟩ :=
  ⟨rfl, (webhook_rejected stripeOk jsonNotJson envSecret reqForgedEvent
    ⟨"No signatures found matching the expected signature for payload"⟩ rfl).1⟩

end PaymentService
